import Mathlib

/-
  Verification of the event-manager agent service (workflow orchestration
  engine): a shallow embedding of the routing, phase-node, action-loop,
  field-mapper and reconciliation code, together with theorems settling the
  specification claims.

  The embedding models Python dict/list/str/int/bool/None data as the
  inductive type JVal, Python exceptions as Except PyErr, and external
  collaborators (the HTTP backend, the database, json.loads fuel) as explicit
  parameters.  Dictionaries are association lists in insertion order; Python
  dict equality is order-insensitive, so every disequality we prove is
  witnessed by a key-set difference, never by order alone.
-/

namespace EventAgent

/-- A JSON-like value, modelling the Python dict/list/str/int/bool/None data
that the agent state and the external API traffic consist of.  Numbers are
modelled as integers; the code paths under verification never compute with
floats. -/
inductive JVal where
  | null
  | b (x : Bool)
  | i (x : Int)
  | s (x : String)
  | arr (xs : List JVal)
  | obj (fs : List (String × JVal))

/-- Structural equality test on JVal, modelling Python `==` on the JSON
fragment (we do not model cross-type numeric equalities such as 1 == True,
which the embedded code never relies on). -/
def JVal.beq : JVal → JVal → Bool
  | .null, .null => true
  | .b x, .b y => x == y
  | .i x, .i y => x == y
  | .s x, .s y => x == y
  | .arr xs, .arr ys => beqList xs ys
  | .obj fs, .obj gs => beqFields fs gs
  | _, _ => false
where
  beqList : List JVal → List JVal → Bool
    | [], [] => true
    | x :: xs, y :: ys => JVal.beq x y && beqList xs ys
    | _, _ => false
  beqFields : List (String × JVal) → List (String × JVal) → Bool
    | [], [] => true
    | (k, v) :: fs, (l, w) :: gs => k == l && JVal.beq v w && beqFields fs gs
    | _, _ => false

/-- Python truthiness of a value (`if value:`). -/
def JVal.truthy : JVal → Bool
  | .null => false
  | .b x => x
  | .i x => x != 0
  | .s x => x != ""
  | .arr xs => !xs.isEmpty
  | .obj fs => !fs.isEmpty

/- String primitives.  The corresponding core library functions (splitOn,
   trim, replace, toLower, toNat?, ...) are defined by well-founded
   recursion and do not reduce definitionally, so the embedding uses these
   structurally recursive equivalents on the character list. -/

/-- Whitespace as stripped by str.strip() and skipped by the JSON reader. -/
def isWsChar (c : Char) : Bool :=
  c = ' ' || c = '\n' || c = '\t' || c = '\r'

/-- Remove `ps` from the front of `cs`, or none when it is not a prefix. -/
def stripPrefixChars : List Char → List Char → Option (List Char)
  | [], rest => some rest
  | _ :: _, [] => none
  | p :: ps, c :: cs => if p = c then stripPrefixChars ps cs else none

/-- Fuelled split on a non-empty separator (left-to-right, non-overlapping,
as str.split); fuel = length of the input suffices. -/
def splitOnFuel (sep : List Char) : Nat → List Char → List (List Char)
  | _, [] => [[]]
  | 0, cs => [cs]
  | fuel+1, c :: cs =>
    match stripPrefixChars sep (c :: cs) with
    | some rest => [] :: splitOnFuel sep fuel rest
    | none =>
      match splitOnFuel sep fuel cs with
      | [] => [[c]]
      | x :: xs => (c :: x) :: xs

/-- Python str.split(sep) for a non-empty separator (the embedded code never
splits on an empty one). -/
def pySplit (hay sep : String) : List String :=
  if sep.length = 0 then [hay]
  else (splitOnFuel sep.toList (hay.length + 1) hay.toList).map
    (fun cs => String.mk cs)

/-- Python str.strip(). -/
def pyStrip (s : String) : String :=
  String.mk (((s.toList.dropWhile isWsChar).reverse.dropWhile isWsChar).reverse)

/-- Python str.replace(old, new) for non-empty old. -/
def pyReplace (s old new : String) : String :=
  String.intercalate new (pySplit s old)

/-- `pre` is a prefix of `s` (str.startswith). -/
def sIsPrefixOf (pre s : String) : Bool :=
  (stripPrefixChars pre.toList s.toList).isSome

def lowerChar (c : Char) : Char :=
  if 65 ≤ c.toNat && c.toNat ≤ 90 then Char.ofNat (c.toNat + 32) else c

/-- Python str.lower() on the ASCII fragment. -/
def sToLower (s : String) : String := String.mk (s.toList.map lowerChar)

/-- Python str.rstrip(chars) for a single character. -/
def sDropRightWhile (p : Char → Bool) (s : String) : String :=
  String.mk ((s.toList.reverse.dropWhile p).reverse)

def digitsToNatL (cs : List Char) : Nat :=
  cs.foldl (fun a c => a * 10 + (c.toNat - 48)) 0

/-- Python int(str): optional sign after stripping whitespace, then decimal
digits. -/
def pyParseInt (s : String) : Option Int :=
  match (pyStrip s).toList with
  | '-' :: rest =>
    if !rest.isEmpty && rest.all (fun c => c.isDigit) then
      some (-(digitsToNatL rest : Int))
    else none
  | '+' :: rest =>
    if !rest.isEmpty && rest.all (fun c => c.isDigit) then
      some ((digitsToNatL rest : Int))
    else none
  | cs =>
    if !cs.isEmpty && cs.all (fun c => c.isDigit) then
      some ((digitsToNatL cs : Int))
    else none

/-- Python substring test `needle in hay` on strings. -/
def substrOccurs (needle hay : String) : Bool :=
  if needle = "" then true else (pySplit hay needle).length != 1

/-- Lookup in an association-list dictionary (Python dicts keep one entry per
key; all dictionaries built by the embedded code have distinct keys). -/
def objGet (fs : List (String × JVal)) (k : String) : Option JVal :=
  (fs.find? (fun kv => kv.1 == k)).map (fun kv => kv.2)

/-- Dictionary lookup as used in specification statements: `pyGet v k` is the
value of key `k` when `v` is a dict that has it. -/
def pyGet : JVal → String → Option JVal
  | .obj fs, k => objGet fs k
  | _, _ => none

/-- Python exceptions raised by the embedded code. -/
inductive PyErr where
  | requestExn
  | valueErr (msg : String)
  | keyErr (k : String)
  | typeErr
  | attrErr
  | indexErr
deriving DecidableEq

/-- Python `key in container`: key test on dicts, membership on lists,
substring on strings, TypeError otherwise. -/
def pyContainsE : JVal → String → Except PyErr Bool
  | .obj fs, k => .ok (fs.any (fun kv => kv.1 == k))
  | .arr xs, k => .ok (xs.any (fun x => JVal.beq x (.s k)))
  | .s hay, k => .ok (substrOccurs k hay)
  | _, _ => .error .typeErr

/-- Python `container[key]` with a string key: KeyError on a dict missing the
key, TypeError on non-dicts. -/
def pyIndexE : JVal → String → Except PyErr JVal
  | .obj fs, k =>
    match objGet fs k with
    | some v => .ok v
    | none => .error (.keyErr k)
  | _, _ => .error .typeErr

/-- Python `container.get(key, default)`: AttributeError on non-dicts. -/
def pyGetMethod : JVal → String → JVal → Except PyErr JVal
  | .obj fs, k, dflt => .ok ((objGet fs k).getD dflt)
  | _, _, _ => .error .attrErr

/-- Python `for x in container`: lists yield elements, dicts yield keys,
strings yield characters, TypeError otherwise. -/
def pyIter : JVal → Except PyErr (List JVal)
  | .arr xs => .ok xs
  | .obj fs => .ok (fs.map (fun kv => JVal.s kv.1))
  | .s str => .ok (str.toList.map (fun c => JVal.s (String.singleton c)))
  | _ => .error .typeErr

/-- Python str() of a scalar, as interpolated by f-strings.  Containers are
serialized by the callers with json.dumps before interpolation, so the
container fallback (which in CPython would use repr) reuses the JSON dump. -/
def escapeJsonChar (c : Char) : String :=
  if c = '"' then "\\\"" else if c = '\\' then "\\\\"
  else if c = '\n' then "\\n" else String.singleton c

def escapeJson (str : String) : String :=
  String.join (str.toList.map escapeJsonChar)

/-- Model of json.dumps on the JVal fragment (default separators). -/
def jsonDump : JVal → String
  | .null => "null"
  | .b true => "true"
  | .b false => "false"
  | .i n => toString n
  | .s str => "\"" ++ escapeJson str ++ "\""
  | .arr xs => "[" ++ String.intercalate ", " (dumpList xs) ++ "]"
  | .obj fs => "\x7b" ++ String.intercalate ", " (dumpFields fs) ++ "\x7d"
where
  dumpList : List JVal → List String
    | [] => []
    | x :: xs => jsonDump x :: dumpList xs
  dumpFields : List (String × JVal) → List String
    | [] => []
    | (k, v) :: fs => ("\"" ++ escapeJson k ++ "\": " ++ jsonDump v) :: dumpFields fs

def pyStr : JVal → String
  | .null => "None"
  | .b true => "True"
  | .b false => "False"
  | .i n => toString n
  | .s str => str
  | v => jsonDump v

def skipWs : List Char → List Char
  | c :: rest => if isWsChar c then skipWs rest else c :: rest
  | [] => []

def parseDigits (acc : Nat) : List Char → Nat × List Char
  | c :: rest =>
    if c.isDigit then parseDigits (acc * 10 + (c.toNat - 48)) rest
    else (acc, c :: rest)
  | [] => (acc, [])

def nextIsNumCont : List Char → Bool
  | c :: _ => c = '.' || c = 'e' || c = 'E'
  | [] => false

/-- Integer token of the JSON reader.  A number continuing with '.' or an
exponent is a float, which is outside the modelled fragment: the reader
rejects it rather than misreading it as an integer. -/
def parseIntTok : List Char → Option (Int × List Char)
  | c :: rest =>
    if c = '-' then
      match rest with
      | d :: _ =>
        if d.isDigit then
          let (n, rest') := parseDigits 0 rest
          if nextIsNumCont rest' then none else some (-(n : Int), rest')
        else none
      | [] => none
    else if c.isDigit then
      let (n, rest') := parseDigits 0 (c :: rest)
      if nextIsNumCont rest' then none else some ((n : Int), rest')
    else none
  | [] => none

def unescapeChar (c : Char) : Option Char :=
  if c = '"' then some '"' else if c = '\\' then some '\\'
  else if c = 'n' then some '\n' else if c = 't' then some '\t'
  else if c = 'r' then some '\r' else if c = '/' then some '/'
  else none

def parseStrBody (acc : List Char) : List Char → Option (String × List Char)
  | [] => none
  | c :: rest =>
    if c = '"' then some (String.mk acc.reverse, rest)
    else if c = '\\' then
      match rest with
      | d :: rest' =>
        match unescapeChar d with
        | some ch => parseStrBody (ch :: acc) rest'
        | none => none
      | [] => none
    else parseStrBody (c :: acc) rest

mutual

/-- Recursive-descent JSON value reader (model of json.loads), fuelled. -/
def parseVal : Nat → List Char → Option (JVal × List Char)
  | 0, _ => none
  | fuel+1, cs =>
    match skipWs cs with
    | [] => none
    | c :: rest =>
      if c = Char.ofNat 123 then
        match skipWs rest with
        | d :: rest' =>
          if d = Char.ofNat 125 then some (.obj [], rest')
          else parseFields fuel (d :: rest') []
        | [] => none
      else if c = '[' then
        match skipWs rest with
        | d :: rest' =>
          if d = ']' then some (.arr [], rest')
          else parseItems fuel (d :: rest') []
        | [] => none
      else if c = '"' then
        match parseStrBody [] rest with
        | some (str, rest') => some (.s str, rest')
        | none => none
      else if c = 't' then
        match rest with
        | 'r' :: 'u' :: 'e' :: rest' => some (.b true, rest')
        | _ => none
      else if c = 'f' then
        match rest with
        | 'a' :: 'l' :: 's' :: 'e' :: rest' => some (.b false, rest')
        | _ => none
      else if c = 'n' then
        match rest with
        | 'u' :: 'l' :: 'l' :: rest' => some (.null, rest')
        | _ => none
      else
        match parseIntTok (c :: rest) with
        | some (n, rest') => some (.i n, rest')
        | none => none

def parseItems : Nat → List Char → List JVal → Option (JVal × List Char)
  | 0, _, _ => none
  | fuel+1, cs, acc =>
    match parseVal fuel cs with
    | some (v, rest) =>
      match skipWs rest with
      | ',' :: rest' => parseItems fuel rest' (acc ++ [v])
      | ']' :: rest' => some (.arr (acc ++ [v]), rest')
      | _ => none
    | none => none

def parseFields : Nat → List Char → List (String × JVal) →
    Option (JVal × List Char)
  | 0, _, _ => none
  | fuel+1, cs, acc =>
    match skipWs cs with
    | c :: rest =>
      if c = '"' then
        match parseStrBody [] rest with
        | some (k, rest1) =>
          match skipWs rest1 with
          | ':' :: rest2 =>
            match parseVal fuel rest2 with
            | some (v, rest3) =>
              match skipWs rest3 with
              | ',' :: rest4 => parseFields fuel rest4 (acc ++ [(k, v)])
              | d :: rest4 =>
                if d = Char.ofNat 125 then some (.obj (acc ++ [(k, v)]), rest4)
                else none
              | [] => none
            | none => none
          | _ => none
        | none => none
      else none
    | [] => none

end

/-- Model of json.loads: parse one value, allow surrounding whitespace,
reject trailing input.  (Duplicate object keys, floats and unicode escapes
are outside the modelled fragment; the embedded code never produces them.) -/
def jsonParse (str : String) : Option JVal :=
  match parseVal (2 * str.length + 2) str.toList with
  | some (v, rest) => if (skipWs rest).isEmpty then some v else none
  | none => none

/- ------------------------------------------------------------------ -/
/- Graph state (src/agents/event_manager_agent/utils/state.py) and the
   langgraph message channel.                                           -/
/- ------------------------------------------------------------------ -/

/-- Role of a conversation message (BaseMessage subclasses). -/
inductive MsgKind where
  | system
  | human
  | ai
  | tool
deriving DecidableEq

/-- A tool call requested by the oracle (name plus structured arguments). -/
structure ToolCall where
  name : String
  args : JVal

/-- A conversation message.  `id` is the message identifier used by the
add_messages reducer (a uuid in the source, a Nat here). -/
structure Msg where
  id : Nat
  kind : MsgKind
  content : String
  tool_calls : List ToolCall

/-- One element of a node's `messages` update: either a new message or a
RemoveMessage(id). -/
inductive MsgUpdate where
  | msg (m : Msg)
  | remove (id : Nat)

/-- The langgraph `add_messages` reducer: RemoveMessage deletes the message
with that id; a message whose id is already present replaces it, otherwise it
is appended. -/
def applyMsgUpdate (msgs : List Msg) : MsgUpdate → List Msg
  | .remove i => msgs.filter (fun m => m.id != i)
  | .msg m =>
    if msgs.any (fun x => x.id == m.id) then
      msgs.map (fun x => if x.id == m.id then m else x)
    else msgs ++ [m]

def add_messages (msgs : List Msg) (updates : List MsgUpdate) : List Msg :=
  updates.foldl applyMsgUpdate msgs

/-- The SupplierState TypedDict (the fields the verified code paths read or
write; the remaining keys of the source TypedDict are never touched by the
modelled nodes). -/
structure SupplierState where
  messages : List Msg
  requirements : Option JVal
  approved_timeline : Option JVal
  final_draft : Option JVal
  final_draft_with_suppliers : Option JVal
  formatted_requirements : Option String
  formatted_timeline : Option String
  formatted_final_draft : Option String

/-- The dict a node returns: present keys overwrite the corresponding state
channels (messages go through the add_messages reducer). -/
structure StateUpdate where
  messages : List MsgUpdate
  requirements : Option JVal
  approved_timeline : Option JVal
  final_draft : Option JVal
  final_draft_with_suppliers : Option JVal
  formatted_requirements : Option String
  formatted_timeline : Option String
  formatted_final_draft : Option String

/-- An update that only appends/removes messages. -/
def messagesOnly (ms : List MsgUpdate) : StateUpdate :=
  ⟨ms, none, none, none, none, none, none, none⟩

/-- Apply a node's returned dict to the state (langgraph channel update:
last-value channels are overwritten when the key is present, the messages
channel uses the add_messages reducer). -/
def applyStateUpdate (s : SupplierState) (u : StateUpdate) : SupplierState where
  messages := add_messages s.messages u.messages
  requirements := match u.requirements with
    | some v => some v
    | none => s.requirements
  approved_timeline := match u.approved_timeline with
    | some v => some v
    | none => s.approved_timeline
  final_draft := match u.final_draft with
    | some v => some v
    | none => s.final_draft
  final_draft_with_suppliers := match u.final_draft_with_suppliers with
    | some v => some v
    | none => s.final_draft_with_suppliers
  formatted_requirements := match u.formatted_requirements with
    | some v => some v
    | none => s.formatted_requirements
  formatted_timeline := match u.formatted_timeline with
    | some v => some v
    | none => s.formatted_timeline
  formatted_final_draft := match u.formatted_final_draft with
    | some v => some v
    | none => s.formatted_final_draft

/-- Truthiness of `state.get(field)` for an optional state field: absent keys
read as None (falsy), present values use Python truthiness. -/
def fieldTruthy : Option JVal → Bool
  | none => false
  | some v => v.truthy

/-- A fresh AI message created by a node. -/
def aiMsg (freshId : Nat) (content : String) : Msg :=
  ⟨freshId, .ai, content, []⟩

/-- The node's broad `except Exception` handler: return
{"messages": [AIMessage(content=f"An error occurred: {str(e)}")]}. -/
def errMsgUpdate (freshId : Nat) (e : String) : StateUpdate :=
  messagesOnly [.msg (aiMsg freshId ("An error occurred: " ++ e))]

/- ------------------------------------------------------------------ -/
/- Phase router (src/agents/event_manager_agent/event_manager_agent.py) -/
/- ------------------------------------------------------------------ -/

/-- Graph nodes, plus the START virtual node and END. -/
inductive Node where
  | START
  | GatherRequirements
  | DraftEventTimeline
  | FinalDraft
  | FindSuppliersAgent
  | FindSuppliersAction
  | END
deriving DecidableEq

/-- route_start: the conditional entry point. -/
def route_start (state : SupplierState) : Node :=
  if fieldTruthy state.final_draft_with_suppliers then .FindSuppliersAgent
  else if fieldTruthy state.final_draft then .FindSuppliersAgent
  else if fieldTruthy state.approved_timeline then .FinalDraft
  else if fieldTruthy state.requirements then .DraftEventTimeline
  else .GatherRequirements

def route_gather (state : SupplierState) : Node :=
  if fieldTruthy state.requirements then .DraftEventTimeline else .END

def route_draft_timeline (state : SupplierState) : Node :=
  if fieldTruthy state.approved_timeline then .FinalDraft else .END

def route_final_draft (state : SupplierState) : Node :=
  if fieldTruthy state.final_draft then .FindSuppliersAgent else .END

/-- should_continue (find_suppliers_node.py): inspect the last message for
tool calls.  The source indexes messages[-1]; the empty-log branch is
unreachable at this edge (the agent node has just appended its response) and
is mapped to "continue" here purely for totality. -/
def should_continue (state : SupplierState) : String :=
  match state.messages.getLast? with
  | some last => if last.tool_calls.isEmpty then "end" else "continue"
  | none => "continue"

/-- The wiring laid down by set_conditional_entry_point, the three
add_conditional_edges calls, the FindSuppliersAgent conditional edge mapping
{"continue": FindSuppliersAction, "end": END} and the fixed edge
FindSuppliersAction -> FindSuppliersAgent. -/
def nextNode : Node → SupplierState → Node
  | .START, s => route_start s
  | .GatherRequirements, s => route_gather s
  | .DraftEventTimeline, s => route_draft_timeline s
  | .FinalDraft, s => route_final_draft s
  | .FindSuppliersAgent, s =>
    if should_continue s = "end" then .END else .FindSuppliersAction
  | .FindSuppliersAction, _ => .FindSuppliersAgent
  | .END, _ => .END

/-- The empty workflow state: a run starts with no document fields set. -/
def emptySupplierState : SupplierState :=
  ⟨[], none, none, none, none, none, none, none⟩

/- ------------------------------------------------------------------ -/
/- Action loop of the FindSuppliers phase.

   Modelled from the spec: the loop executor itself is the langgraph
   runtime (not part of this repository's sources); only the decision
   function should_continue and the edge wiring above are in src/.  The
   runtime alternates the agent node (one oracle invocation) with the tool
   node, and enforces a configurable recursion limit, default 25, surfacing
   a LoopExhausted/GraphRecursionError when the limit is exceeded.         -/
/- ------------------------------------------------------------------ -/

/-- Default iteration bound of the loop runtime. -/
def DEFAULT_RECURSION_LIMIT : Nat := 25

/-- Result of running the FindSuppliers action loop. -/
inductive LoopResult where
  | done (messages : List Msg)
  | exhausted

/-- A state holding only a conversation log (the loop decision reads nothing
else). -/
def stateWithMessages (ms : List Msg) : SupplierState :=
  ⟨ms, none, none, none, none, none, none, none⟩

/-- Modelled from the spec: the action loop.  Each iteration invokes the
oracle on the log, appends its response, exits via should_continue = "end"
when the response requests no tool calls, and otherwise appends the tool
results and repeats; running out of the configured bound surfaces
LoopExhausted. -/
def runLoop (oracle : List Msg → Msg) (execTools : Msg → List Msg) :
    Nat → List Msg → LoopResult
  | 0, _ => .exhausted
  | fuel+1, msgs =>
    let response := oracle msgs
    let msgs' := msgs ++ [response]
    if should_continue (stateWithMessages msgs') = "end" then .done msgs'
    else runLoop oracle execTools fuel (msgs' ++ execTools response)

/-- The log reached after k full (oracle + tools) iterations of the loop. -/
def loopTrace (oracle : List Msg → Msg) (execTools : Msg → List Msg) :
    Nat → List Msg → List Msg
  | 0, msgs => msgs
  | k+1, msgs =>
    loopTrace oracle execTools k (msgs ++ [oracle msgs] ++ execTools (oracle msgs))

/- ------------------------------------------------------------------ -/
/- Field mapper (src/agents/event_manager_agent/utils/tools_config.py)  -/
/- ------------------------------------------------------------------ -/

/-- Walk a dotted path: `value = value.get(key)` while value is a dict,
short-circuiting to None otherwise. -/
def dotWalk (v : JVal) : List String → JVal
  | [] => v
  | k :: rest =>
    match v with
    | .obj fs => dotWalk ((objGet fs k).getD .null) rest
    | _ => .null

/-- map_event_data: recursively map data from one structure to another based
on the provided mapping (a string is a dotted source path, a dict maps each
key through its sub-mapping, anything else returns the data unchanged). -/
def map_event_data (data : JVal) (mapping : JVal) : JVal :=
  match mapping with
  | .s path => dotWalk data (pySplit path ".")
  | .obj fs => .obj (goFields data fs)
  | _ => data
where goFields (data : JVal) : List (String × JVal) → List (String × JVal)
  | [] => []
  | (k, v) :: rest => (k, map_event_data data v) :: goFields data rest

/-- Insert or overwrite a key in a dict, preserving insertion order. -/
def upsert (fs : List (String × JVal)) (k : String) (v : JVal) :
    List (String × JVal) :=
  if fs.any (fun kv => kv.1 == k) then
    fs.map (fun kv => if kv.1 == k then (k, v) else kv)
  else fs ++ [(k, v)]

/-- The nested-path write of reverse_map_event_data:
`target = result; for part in path[:-1]: target = target.setdefault(part, {});
target[path[-1]] = value`.  A non-dict intermediate or target raises
(AttributeError/TypeError), which reverse_map_event_data catches per key and
logs, leaving the result unchanged for that key: modelled by returning the
target untouched. -/
def setPath : JVal → List String → JVal → JVal
  | .obj fs, [k], v => .obj (upsert fs k v)
  | .obj fs, k :: rest, v =>
    let sub := ((fs.find? (fun kv => kv.1 == k)).map (fun kv => kv.2)).getD (.obj [])
    .obj (upsert fs k (setPath sub rest v))
  | t, _, _ => t

/-- reverse_map_event_data: rebuild the nested structure by writing each key
of `data` (a dict; .items() on anything else raises, modelled as none) along
its reverse-mapping path; keys without a reverse mapping are logged and
skipped. -/
def reverse_map_event_data (data : JVal)
    (reverse_mapping : List (String × List String)) : Option JVal :=
  match data with
  | .obj fs =>
    some (fs.foldl (fun result kv =>
      match (reverse_mapping.find? (fun e => e.1 == kv.1)).map (fun e => e.2) with
      | some path => setPath result path kv.2
      | none => result) (.obj []))
  | _ => none

/-- EVENT_DATA_MAPPING (tools_config.py). -/
def EVENT_DATA_MAPPING : JVal := .obj [
  ("id", .s "event.id"),
  ("event_type", .s "event.name"),
  ("start_date", .s "event.fromDate"),
  ("end_date", .s "event.toDate"),
  ("participants", .s "event.participantAmount"),
  ("location", .s "event.eventAddress.displayAddress"),
  ("additional_requirements", .s "event.extraRequirements"),
  ("event_contents", .s "event.requests"),
  ("content", .s "name"),
  ("offers", .s "requestOffers"),
  ("parts", .s "offerParts"),
  ("name", .s "name"),
  ("amount", .s "amount"),
  ("amount_type", .s "amountType.name"),
  ("start_time", .s "dateTimeFrom"),
  ("end_time", .s "dateTimeTo")]

/-- REVERSE_EVENT_DATA_MAPPING (tools_config.py). -/
def REVERSE_EVENT_DATA_MAPPING : List (String × List String) := [
  ("id", ["event", "id"]),
  ("event_type", ["event", "name"]),
  ("start_date", ["event", "fromDate"]),
  ("end_date", ["event", "toDate"]),
  ("participants", ["event", "participantAmount"]),
  ("location", ["event", "eventAddress", "displayAddress"]),
  ("additional_requirements", ["event", "extraRequirements"]),
  ("event_contents", ["event", "requests"]),
  ("content", ["request", "name"]),
  ("offers", ["request", "requestOffers"]),
  ("parts", ["offer", "offerParts"]),
  ("name", ["part", "name"]),
  ("amount", ["part", "amount"]),
  ("amount_type", ["part", "amountType", "name"]),
  ("start_time", ["part", "dateTimeFrom"]),
  ("end_time", ["part", "dateTimeTo"])]

/- ------------------------------------------------------------------ -/
/- Phase nodes.  Each node is modelled by its post-oracle update
   function: given the prior state and the oracle's response message, it
   produces the dict the node returns to the graph.  The oracle call
   itself (llm.invoke) is outside the embedding; `freshId` models the
   fresh uuid langchain assigns to a message the node constructs.
   Error-message texts stand in for str(e), whose exact wording the
   theorems never consult.                                              -/
/- ------------------------------------------------------------------ -/

/-- Rendering of str(e) for the modelled exceptions (KeyError shows the
quoted key, as in CPython; the other texts are placeholders). -/
def pyErrStr : PyErr → String
  | .requestExn => "request exception"
  | .valueErr m => m
  | .keyErr k => "\x27" ++ k ++ "\x27"
  | .typeErr => "type error"
  | .attrErr => "attribute error"
  | .indexErr => "list index out of range"

/-- format_requirements_table (gather_requirements.py): parse the
requirements string and render a markdown table; a JSON decode failure is
caught and rendered as an error row, while .items() on a non-dict raises
AttributeError out of the function (modelled as none). -/
def format_requirements_table (requirements : String) : Option String :=
  match jsonParse requirements with
  | none =>
    some ("Error parsing requirements: invalid JSON\nRaw requirements: " ++
      requirements)
  | some (.obj fs) =>
    some (fs.foldl (fun table kv =>
      let value := match kv.2 with
        | .arr _ => jsonDump kv.2
        | .obj _ => jsonDump kv.2
        | v => pyStr v
      table ++ "| " ++ kv.1 ++ " | " ++ value ++ " |\n")
      "| Requirement | Value |\n|-------------|-------|\n")
  | some _ => none

/-- The `if not isinstance(requirements, str): requirements =
json.dumps(requirements)` step of gather_requirements_node. -/
def requirements_as_string (reqVal : JVal) : String :=
  match reqVal with
  | .s str => str
  | v => jsonDump v

/-- gather_requirements_node, after the oracle call.  `response.tool_calls`
holds the Build tool calls; args is the parsed arguments dict of the first
one. -/
def gather_requirements_update (freshId : Nat) (state : SupplierState)
    (response : Msg) : StateUpdate :=
  match response.tool_calls with
  | [] => messagesOnly [.msg (aiMsg freshId response.content)]
  | tc :: _ =>
    match pyIndexE tc.args "requirements" with
    | .error e => errMsgUpdate freshId (pyErrStr e)
    | .ok reqVal =>
      match format_requirements_table (requirements_as_string reqVal) with
      | none => errMsgUpdate freshId "attribute error"
      | some formatted =>
        ⟨state.messages.map (fun m => .remove m.id) ++
          [.msg (aiMsg freshId
            ("Here are the gathered requirements:\n\n" ++ formatted))],
         some (.s (requirements_as_string reqVal)), none, none, none,
         some formatted, none, none⟩

/-- The `all(key in event for key in ["time", "name", "duration"])` check of
extract_timeline_from_response. -/
def validEvent (ev : JVal) : Except PyErr Bool := do
  let t ← pyContainsE ev "time"
  if !t then return false
  let n ← pyContainsE ev "name"
  if !n then return false
  pyContainsE ev "duration"

/-- Validation of one timeline item: a day dict (date + well-formed events),
or an additional_preferences list; anything else is a ValueError (caught by
the caller, .ok false here); a TypeError escapes (.error). -/
def validTimelineItem (item : JVal) : Except PyErr Bool := do
  let hasDate ← pyContainsE item "date"
  let hasEvents ← if hasDate then pyContainsE item "events" else pure false
  if hasDate && hasEvents then
    let evs ← pyIndexE item "events"
    let evList ← pyIter evs
    goEvents evList
  else
    let hasAdd ← pyContainsE item "additional_preferences"
    if hasAdd then
      let ap ← pyIndexE item "additional_preferences"
      match ap with
      | .arr _ => return true
      | _ => return false
    else return false
where goEvents : List JVal → Except PyErr Bool
  | [] => pure true
  | ev :: rest => do
    let ok ← validEvent ev
    if ok then goEvents rest else return false

def validateTimeline : List JVal → Except PyErr Bool
  | [] => pure true
  | item :: rest => do
    let ok ← validTimelineItem item
    if ok then validateTimeline rest else return false

/-- extract_timeline_from_response (draft_timeline_node.py): strip the
finalization marker, take the fenced json block (IndexError when absent is
caught), parse it, and validate the structure; JSONDecodeError, IndexError
and ValueError are caught and yield [], while a TypeError escapes. -/
def extract_timeline_from_response (content : String) :
    Except PyErr (List JVal) :=
  let c1 := pyStrip (pyReplace content "--timeline_finalized--" "")
  match (pySplit c1 "```json").get? 1 with
  | none => .ok []
  | some after =>
    let c2 := pyStrip ((pySplit after "```").headD "")
    match jsonParse c2 with
    | none => .ok []
    | some v =>
      match v with
      | .arr items =>
        match validateTimeline items with
        | .ok true => .ok items
        | .ok false => .ok []
        | .error e => .error e
      | _ => .ok []

/-- format_timeline_table (draft_timeline_node.py). -/
def format_timeline_table (timeline : String) : Option String :=
  match jsonParse timeline with
  | none =>
    some ("Error parsing timeline: invalid JSON\nRaw timeline: " ++ timeline)
  | some v =>
    match (do
      let days ← pyIter v
      let mut table :=
        "| Date | Time | Event | Duration |\n|------|------|-------|----------|\n"
      for day in days do
        let hasD ← pyContainsE day "date"
        let hasE ← if hasD then pyContainsE day "events" else pure false
        if hasD && hasE then
          let date ← pyIndexE day "date"
          let evs ← pyIndexE day "events"
          let evList ← pyIter evs
          for ev in evList do
            let t ← pyIndexE ev "time"
            let n ← pyIndexE ev "name"
            let d ← pyIndexE ev "duration"
            table := table ++ "| " ++ pyStr date ++ " | " ++ pyStr t ++
              " | " ++ pyStr n ++ " | " ++ pyStr d ++ " |\n"
      return table : Except PyErr String) with
    | .ok t => some t
    | .error _ => none

/-- The `next((item[k] for item in timeline if k in item), [])` pattern of
draft_timeline_node, for k = additional_preferences. -/
def findAdditionalPrefs : List JVal → Except PyErr JVal
  | [] => .ok (.arr [])
  | item :: rest => do
    let h ← pyContainsE item "additional_preferences"
    if h then pyIndexE item "additional_preferences"
    else findAdditionalPrefs rest

/-- The `[item for item in timeline if 'date' in item]` comprehension. -/
def filterDateItems : List JVal → Except PyErr (List JVal)
  | [] => .ok []
  | item :: rest => do
    let h ← pyContainsE item "date"
    let tail ← filterDateItems rest
    if h then return item :: tail else return tail

/-- The extraction and list-comprehension steps of draft_timeline_node's
finalization branch. -/
def draft_timeline_pieces (content : String) :
    Except PyErr (List JVal × JVal × List JVal) := do
  let timeline ← extract_timeline_from_response content
  let additional_preferences ← findAdditionalPrefs timeline
  let timeline_events ← filterDateItems timeline
  let prefList ← pyIter additional_preferences
  return (timeline_events, additional_preferences, prefList)

/-- draft_timeline_node, after the oracle call. -/
def draft_timeline_update (freshId : Nat) (state : SupplierState)
    (response : Msg) : StateUpdate :=
  if substrOccurs "--timeline_finalized--" response.content then
    match draft_timeline_pieces response.content with
    | .error e => errMsgUpdate freshId (pyErrStr e)
    | .ok (timeline_events, additional_preferences, prefList) =>
      match format_timeline_table (jsonDump (.arr timeline_events)) with
      | none => errMsgUpdate freshId "formatting error"
      | some formatted =>
        ⟨state.messages.map (fun m => .remove m.id) ++
          [.msg (aiMsg freshId
            ("Here\x27s the final timeline for your event:\n\n" ++ formatted ++
             "\n\nAdditional preferences:\n" ++
             String.intercalate "\n" (prefList.map (fun p => "- " ++ pyStr p)) ++
             "\n\nThe timeline has been approved and we\x27re moving on to the next step in planning your event."))],
         none,
         some (.obj [("timeline", .arr timeline_events),
           ("additional_preferences", additional_preferences)]),
         none, none, none, some formatted, none⟩
  else messagesOnly [.msg (aiMsg freshId response.content)]

/-- extract_final_draft_from_response (final_draft_node.py): strip the
marker, take the fenced json block, parse; JSONDecodeError and IndexError
are caught and yield an empty dict.  Note the parsed payload is returned
whole (the final_draft_approved wrapper is not unwrapped). -/
def extract_final_draft_from_response (content : String) : JVal :=
  let c1 := pyStrip (pyReplace content "--final_draft_approved--" "")
  match (pySplit c1 "```json").get? 1 with
  | none => .obj []
  | some after =>
    match jsonParse (pyStrip ((pySplit after "```").headD "")) with
    | none => .obj []
    | some v => v

/-- `', '.join(xs)`: every element must be a string, else TypeError. -/
def joinStrs : List JVal → Except PyErr (List String)
  | [] => .ok []
  | .s str :: rest => do
    let r ← joinStrs rest
    return str :: r
  | _ :: _ => .error .typeErr

/-- format_final_draft (final_draft_node.py).  Any KeyError/TypeError/
AttributeError raised while walking the draft propagates out of the function
(modelled as none), to be caught by the node's broad handler. -/
def format_final_draft (fd0 : JVal) : Option String :=
  match (do
    let hasFd ← pyContainsE fd0 "final_draft"
    let fd ← if hasFd then pyIndexE fd0 "final_draft" else pure fd0
    let mut formatted := "Final Event Draft:\n\n"
    let hasReq ← pyContainsE fd "requirements"
    if hasReq then
      formatted := formatted ++ "Updated Requirements:\n"
      let req ← pyIndexE fd "requirements"
      let items ← (match req with
        | .obj fs => .ok fs
        | _ => .error .attrErr : Except PyErr (List (String × JVal)))
      for kv in items do
        if kv.1 == "event_contents" then
          formatted := formatted ++ "- " ++ kv.1 ++ ":\n"
          let contents ← pyIter kv.2
          for content in contents do
            let cname ← pyIndexE content "content"
            formatted := formatted ++ "  - " ++ pyStr cname ++ ":\n" ++
              "    Parts:\n"
            let parts ← pyIndexE content "parts"
            let partList ← pyIter parts
            for part in partList do
              let pname ← pyIndexE part "name"
              let amount ← pyIndexE part "amount"
              let atype ← pyIndexE part "amount_type"
              formatted := formatted ++ "      - " ++ pyStr pname ++
                " (Amount: " ++ pyStr amount ++ " " ++ pyStr atype ++ ")\n"
            let prefs ← pyIndexE content "preferred_suppliers"
            let prefItems ← pyIter prefs
            let prefStrs ← joinStrs prefItems
            formatted := formatted ++ "    Preferred Suppliers: " ++
              String.intercalate ", " prefStrs ++ "\n"
        else
          formatted := formatted ++ "- " ++ kv.1 ++ ": " ++ pyStr kv.2 ++ "\n"
    let hasTl ← pyContainsE fd "timeline"
    if hasTl then
      formatted := formatted ++ "\nFinal Timeline:\n"
      let tl ← pyIndexE fd "timeline"
      let tlList ← pyIter tl
      for day in tlList do
        let date ← pyIndexE day "date"
        formatted := formatted ++ "Date: " ++ pyStr date ++ "\n"
        let evs ← pyIndexE day "events"
        let evList ← pyIter evs
        for ev in evList do
          let t ← pyIndexE ev "time"
          let n ← pyIndexE ev "name"
          let d ← pyIndexE ev "duration"
          formatted := formatted ++ "  - " ++ pyStr t ++ ": " ++ pyStr n ++
            " (" ++ pyStr d ++ ")\n"
    return formatted : Except PyErr String) with
  | .ok f => some f
  | .error _ => none

/-- final_draft_node, after the oracle call.  The finalization test is the
substring "final_draft_approved" in the response content. -/
def final_draft_update (freshId : Nat) (state : SupplierState)
    (response : Msg) : StateUpdate :=
  if substrOccurs "final_draft_approved" response.content then
    match format_final_draft (extract_final_draft_from_response response.content) with
    | none => errMsgUpdate freshId "formatting error"
    | some formatted =>
      ⟨state.messages.map (fun m => .remove m.id) ++
        [.msg (aiMsg freshId
          ("Here\x27s the final draft for your event:\n\n" ++ formatted ++
           "\n\nThe final draft has been approved and we\x27re moving on to the next step in planning your event."))],
       none, none, some (extract_final_draft_from_response response.content),
       none, none, none, some formatted⟩
  else messagesOnly [.msg (aiMsg freshId response.content)]

/-- Payload location of extract_final_draft_with_suppliers: the fenced json
block when both fences occur, else the outermost brace pair, else the raw
content. -/
def lastBraceIdx (cs : List Char) : Option Nat :=
  match cs.reverse.findIdx? (fun ch => ch = Char.ofNat 125) with
  | some r => some (cs.length - 1 - r)
  | none => none

def locate_payload (content : String) : String :=
  if substrOccurs "```json" content && substrOccurs "```" content then
    pyStrip ((pySplit ((pySplit content "```json").getD 1 "") "```").headD "")
  else
    let cs := content.toList
    match cs.findIdx? (fun ch => ch = Char.ofNat 123), lastBraceIdx cs with
    | some st, some en => String.mk ((cs.drop st).take (en + 1 - st))
    | _, _ => content

/-- extract_final_draft_with_suppliers (find_suppliers_node.py): locate the
payload, parse it (JSONDecodeError is caught and yields an empty dict),
return the final_draft_with_suppliers entry when the parsed value has it,
an empty dict when the key is missing; a payload that parses to a scalar
(`key in parsed` raises TypeError) or to a list/string containing the key
(indexing raises TypeError) escapes uncaught. -/
def extract_final_draft_with_suppliers (content : String) :
    Except PyErr JVal :=
  match jsonParse (locate_payload content) with
  | none => .ok (.obj [])
  | some parsed =>
    match pyContainsE parsed "final_draft_with_suppliers" with
    | .error e => .error e
    | .ok true => pyIndexE parsed "final_draft_with_suppliers"
    | .ok false => .ok (.obj [])

/-- find_suppliers_node, after the oracle call: the response is appended to
the log as-is, and when the substring "final_draft_with_suppliers" occurs in
the content the extracted payload is written to the state field.  The node
has no try/except, so an extraction TypeError escapes (.error). -/
def find_suppliers_update (_state : SupplierState) (response : Msg) :
    Except PyErr StateUpdate :=
  if substrOccurs "final_draft_with_suppliers" response.content then
    match extract_final_draft_with_suppliers response.content with
    | .error e => .error e
    | .ok fdws =>
      .ok ⟨[.msg response], none, none, none, some fdws, none, none, none⟩
  else .ok (messagesOnly [.msg response])

/- ------------------------------------------------------------------ -/
/- Reconciliation engine: tools_utils.py helpers and create_event_tool
   (tools.py).  External HTTP calls are parameters (ApiEnv); each call
   is recorded in a trace.                                              -/
/- ------------------------------------------------------------------ -/

/-- Python int() on the modelled values. -/
def pyIntE : JVal → Except PyErr Int
  | .i n => .ok n
  | .b true => .ok 1
  | .b false => .ok 0
  | .s str =>
    match pyParseInt str with
    | some n => .ok n
    | none => .error (.valueErr ("invalid literal for int(): " ++ str))
  | _ => .error .typeErr

/-- Python `container[0]`. -/
def pyIndex0 : JVal → Except PyErr JVal
  | .arr (x :: _) => .ok x
  | .arr [] => .error .indexErr
  | .s str =>
    match str.toList with
    | c :: _ => .ok (.s (String.singleton c))
    | [] => .error .indexErr
  | .obj _ => .error (.keyErr "0")
  | _ => .error .typeErr

def isLeapYear (y : Nat) : Bool :=
  (y % 4 == 0 && y % 100 != 0) || y % 400 == 0

def daysInMonth (y m : Nat) : Nat :=
  if m == 2 then (if isLeapYear y then 29 else 28)
  else if m == 4 || m == 6 || m == 9 || m == 11 then 30
  else 31

def allDigits (str : String) : Bool :=
  decide (str.length > 0) && str.toList.all (fun c => c.isDigit)

/-- datetime.strptime(value, "%Y-%m-%d"): TypeError on non-strings,
ValueError on strings not matching the format or naming an invalid civil
date. -/
def parseDateE (v : JVal) : Except PyErr (Nat × Nat × Nat) :=
  match v with
  | .s str =>
    match pySplit str "-" with
    | [ys, ms, ds] =>
      if allDigits ys && allDigits ms && allDigits ds &&
          decide (ys.length ≤ 4) && decide (ms.length ≤ 2) &&
          decide (ds.length ≤ 2) then
        let y := digitsToNatL ys.toList
        let m := digitsToNatL ms.toList
        let d := digitsToNatL ds.toList
        if decide (1 ≤ m) && decide (m ≤ 12) && decide (1 ≤ d) &&
            decide (d ≤ daysInMonth y m) then
          .ok (y, m, d)
        else .error (.valueErr ("time data \x27" ++ str ++
          "\x27 does not match format \x27%Y-%m-%d\x27"))
      else .error (.valueErr ("time data \x27" ++ str ++
        "\x27 does not match format \x27%Y-%m-%d\x27"))
    | _ => .error (.valueErr ("time data \x27" ++ str ++
        "\x27 does not match format \x27%Y-%m-%d\x27"))
  | _ => .error .typeErr

/-- datetime.strptime(value, "%H:%M"). -/
def parseTimeE (v : JVal) : Except PyErr (Nat × Nat) :=
  match v with
  | .s str =>
    match pySplit str ":" with
    | [hs, ms] =>
      if allDigits hs && allDigits ms && decide (hs.length ≤ 2) &&
          decide (ms.length ≤ 2) then
        let h := digitsToNatL hs.toList
        let m := digitsToNatL ms.toList
        if decide (h ≤ 23) && decide (m ≤ 59) then .ok (h, m)
        else .error (.valueErr ("time data \x27" ++ str ++
          "\x27 does not match format \x27%H:%M\x27"))
      else .error (.valueErr ("time data \x27" ++ str ++
        "\x27 does not match format \x27%H:%M\x27"))
    | _ => .error (.valueErr ("time data \x27" ++ str ++
        "\x27 does not match format \x27%H:%M\x27"))
  | _ => .error .typeErr

/-- Day number of a civil date (days since 1970-01-01, proleptic
Gregorian), used for the `(end_date - start_date).days` computation. -/
def daysFromCivil (y m d : Int) : Int :=
  let y' := if m ≤ 2 then y - 1 else y
  let era := (if y' ≥ 0 then y' else y' - 399) / 400
  let yoe := y' - era * 400
  let mp := (m + 9) % 12
  let doy := (153 * mp + 2) / 5 + d - 1
  let doe := yoe * 365 + yoe / 4 - yoe / 100 + doy
  era * 146097 + doe - 719468

def civilDay (t : Nat × Nat × Nat) : Int :=
  daysFromCivil (t.1 : Int) (t.2.1 : Int) (t.2.2 : Int)

/-- align_data_for_application (tools_utils.py).  `localEpochMs` models the
local-timezone epoch conversion of a midnight datetime
(time.mktime(date.timetuple()) * 1000, and equally
datetime.timestamp() * 1000), which depends on the host timezone and is
therefore a parameter of the embedding. -/
def align_data_for_application (localEpochMs : Nat × Nat × Nat → Int)
    (final_draft : JVal) (user_email : String) : Except PyErr JVal := do
  let requirements ← pyIndexE final_draft "requirements"
  let sdv ← pyIndexE requirements "start_date"
  let start_date ← parseDateE sdv
  let edv ← pyIndexE requirements "end_date"
  let end_date ← parseDateE edv
  let duration := civilDay end_date - civilDay start_date + 1
  let template_id : Int :=
    if duration = 1 then 1240021
    else if duration = 2 then 1239948
    else if duration = 3 then 1227509
    else 1240021
  let from_date := localEpochMs start_date
  let to_date := localEpochMs end_date
  let ev_type ← pyIndexE requirements "event_type"
  let participants ← pyIndexE requirements "participants"
  let location ← pyIndexE requirements "location"
  let extraReq ← pyGetMethod requirements "additional_requirements" (.s "")
  let overnight ← pyGetMethod requirements "overnight_guests" (.s "")
  return .obj [
    ("templateId", .i template_id),
    ("fromDate", .i from_date),
    ("toDate", .i to_date),
    ("name", ev_type),
    ("participantAmount", .s (pyStr participants)),
    ("eventAddress", .obj [("country", .s "Sweden"),
      ("displayAddress", location)]),
    ("extraRequirements", extraReq),
    ("email", .s user_email),
    ("escapeAccommodation", .b (JVal.beq overnight (.s ""))),
    ("eventCoach", .b false),
    ("interestedInOtherDates", .b false),
    ("isJulbordEvent", .b false),
    ("isOnboardingEvent", .b false),
    ("addAccommodationPartsNotPresentInTemplate", .b false)]

/-- prepare_parts_data (tools_utils.py): translate each drafted part into the
external offer-part payload; non-timeless parts get millisecond time-of-day
bounds and the local-epoch event date. -/
def prepare_parts_data (localEpochMs : Nat × Nat × Nat → Int)
    (parts : JVal) : Except PyErr (List JVal) := do
  let partList ← pyIter parts
  let mut parts_data : List JVal := []
  for part in partList do
    let pname ← pyIndexE part "name"
    let timeless ← pyIndexE part "timeless"
    let atypev ← pyIndexE part "amount_type"
    let amountRaw ← pyIndexE part "amount"
    let amount ← pyIntE amountRaw
    let base : List (String × JVal) := [
      ("name", pname),
      ("timeless", timeless),
      ("amountType", .obj [("name", atypev)]),
      ("amount", .i amount),
      ("commentByCreator", .s "")]
    if !timeless.truthy then
      let dv ← pyIndexE part "date"
      let event_date ← parseDateE dv
      let tv ← pyIndexE part "time"
      let start_time ← parseTimeE tv
      let dh ← pyIndexE part "duration_hours"
      let dhStr ← (match dh with
        | .s str => .ok str
        | _ => .error .attrErr : Except PyErr String)
      let durs ← (match pySplit dhStr "," with
        | [a, b] => do
          let x ← pyIntE (.s a)
          let y ← pyIntE (.s b)
          pure (x, y)
        | _ => .error (.valueErr "cannot unpack duration") :
          Except PyErr (Int × Int))
      let startMin : Int := (start_time.1 : Int) * 60 + (start_time.2 : Int)
      let endTotalMin : Int := startMin + durs.1 * 60 + durs.2
      let start_time_ms := startMin * 60000
      let end_time_ms := (endTotalMin % 1440) * 60000
      let event_from_date_ms := localEpochMs event_date
      parts_data := parts_data ++ [.obj (base ++ [
        ("dateTimeFrom", .i start_time_ms),
        ("dateTimeTo", .i end_time_ms),
        ("eventFromDate", .i event_from_date_ms)])]
    else
      parts_data := parts_data ++ [.obj base]
  return parts_data

/-- One aligned content as built by prepare_event_contents: a dict with keys
name (from content["content"]), parts (prepared), potential_suppliers. -/
structure ContentPrep where
  cname : JVal
  parts : List JVal
  potential_suppliers : JVal

/-- prepare_event_contents (tools_utils.py). -/
def prepare_event_contents (localEpochMs : Nat × Nat × Nat → Int)
    (final_draft : JVal) : Except PyErr (List ContentPrep) := do
  let requirements ← pyIndexE final_draft "requirements"
  let contents ← pyGetMethod requirements "event_contents" (.arr [])
  let contentList ← pyIter contents
  let mut event_contents : List ContentPrep := []
  for content in contentList do
    let cname ← pyIndexE content "content"
    let rawParts ← pyIndexE content "parts"
    let parts ← prepare_parts_data localEpochMs rawParts
    let psup ← pyGetMethod content "potential_suppliers" (.arr [])
    event_contents := event_contents ++ [⟨cname, parts, psup⟩]
  return event_contents

/-- Python dict assignment keyed by an arbitrary value: unhashable keys
(lists/dicts) raise TypeError; an equal key is overwritten in place. -/
def dictSet (d : List (JVal × JVal)) (k v : JVal) :
    Except PyErr (List (JVal × JVal)) :=
  match k with
  | .arr _ => .error .typeErr
  | .obj _ => .error .typeErr
  | _ =>
    if d.any (fun kv => JVal.beq kv.1 k) then
      .ok (d.map (fun kv => if JVal.beq kv.1 k then (k, v) else kv))
    else .ok (d ++ [(k, v)])

/-- Python dict .get keyed by an arbitrary value. -/
def dictGet (d : List (JVal × JVal)) (k : JVal) :
    Except PyErr (Option JVal) :=
  match k with
  | .arr _ => .error .typeErr
  | .obj _ => .error .typeErr
  | _ => .ok ((d.find? (fun kv => JVal.beq kv.1 k)).map (fun kv => kv.2))

def dictSetL (d : List (JVal × List JVal)) (k : JVal) (v : List JVal) :
    Except PyErr (List (JVal × List JVal)) :=
  match k with
  | .arr _ => .error .typeErr
  | .obj _ => .error .typeErr
  | _ =>
    if d.any (fun kv => JVal.beq kv.1 k) then
      .ok (d.map (fun kv => if JVal.beq kv.1 k then (k, v) else kv))
    else .ok (d ++ [(k, v)])

/-- prepare_supplier_data (tools_utils.py): group the eligible suppliers
(non-empty el_supplier_id) of each content, keyed by content["name"].  Note
this reads key "name" on whatever list it is handed. -/
def prepare_supplier_data (event_contents : JVal) (send : Bool) :
    Except PyErr (List (JVal × List JVal)) := do
  let contentList ← pyIter event_contents
  let mut suppliers_by_content : List (JVal × List JVal) := []
  for content in contentList do
    let content_name ← pyIndexE content "name"
    let psup ← pyGetMethod content "potential_suppliers" (.arr [])
    let supList ← pyIter psup
    let mut suppliers : List JVal := []
    for supplier in supList do
      let elid ← pyGetMethod supplier "el_supplier_id" .null
      if elid.truthy then
        suppliers := suppliers ++ [.obj [("id", elid), ("send", .b send)]]
    if !suppliers.isEmpty then
      suppliers_by_content ← dictSetL suppliers_by_content content_name suppliers
  return suppliers_by_content

/-- The remote operations create_event_tool can issue, with their request
payloads, in the order issued (the reconciliation trace). -/
inductive ApiCall where
  | create_event (data : JVal)
  | add_content (event_id : JVal) (data : JVal)
  | get_event_detail (event_id : JVal)
  | add_part (request_id : JVal) (data : JVal)
  | add_suppliers (request_id : JVal) (data : JVal)
  | add_suppliers_send (request_id : JVal) (data : JVal)

def ApiCall.isSupplierAttach : ApiCall → Bool
  | .add_suppliers _ _ => true
  | .add_suppliers_send _ _ => true
  | _ => false

def ApiCall.isPartCall : ApiCall → Bool
  | .add_part _ _ => true
  | _ => false

/-- The external system boundary: each field gives the JSON body answered to
a request (none models a requests.RequestException at that call site).
localEpochMs is the host-timezone epoch conversion (see
align_data_for_application). -/
structure ApiEnv where
  create_event : JVal → Option JVal
  add_content : JVal → JVal → Option JVal
  get_event_detail : JVal → Option JVal
  add_part : JVal → JVal → Option JVal
  add_suppliers : JVal → JVal → Option JVal
  add_suppliers_send : JVal → JVal → Option JVal
  localEpochMs : Nat × Nat × Nat → Int

/-- Computation that issues remote calls (recorded in a trace) and may raise:
the traced Python-exception monad of the reconciliation engine. -/
def ToolM (α : Type) := List ApiCall → List ApiCall × Except PyErr α

instance : Monad ToolM where
  pure a := fun t => (t, .ok a)
  bind x f := fun t =>
    match x t with
    | (t', .ok a) => f a t'
    | (t', .error e) => (t', .error e)

def throwPy {α : Type} (e : PyErr) : ToolM α := fun t => (t, .error e)

def liftPy {α : Type} : Except PyErr α → ToolM α
  | .ok a => fun t => (t, .ok a)
  | .error e => fun t => (t, .error e)

/-- Issue one remote call: append it to the trace and either return the
body or raise the RequestException. -/
def callApi (call : ApiCall) (resp : Option JVal) : ToolM JVal :=
  fun t => (t ++ [call],
    match resp with
    | some v => .ok v
    | none => .error .requestExn)

/-- The except clauses of get_content_details: RequestException, ValueError,
AttributeError and TypeError are caught and yield None; anything else (in
particular KeyError) propagates. -/
def catchDetailErrs (x : ToolM JVal) : ToolM JVal := fun t =>
  match x t with
  | (t', .ok v) => (t', .ok v)
  | (t', .error .requestExn) => (t', .ok .null)
  | (t', .error (.valueErr _)) => (t', .ok .null)
  | (t', .error .typeErr) => (t', .ok .null)
  | (t', .error .attrErr) => (t', .ok .null)
  | (t', .error e) => (t', .error e)

/-- Body of get_content_details (tools_utils.py): fetch the event detail and
map the request whose name matches, collecting offer ids (from
requestOffers[i].request.id) and mapped parts; None when not found. -/
def get_content_details_body (env : ApiEnv) (event_id : JVal)
    (content_name : JVal) : ToolM JVal := do
  let event_details ← callApi (.get_event_detail event_id)
    (env.get_event_detail event_id)
  let okShape ← (do
    match event_details with
    | .obj _ => do
      let hasEvent ← liftPy (pyContainsE event_details "event")
      if !hasEvent then pure false
      else do
        let ev ← liftPy (pyIndexE event_details "event")
        let hasReqs ← liftPy (pyContainsE ev "requests")
        pure hasReqs
    | _ => pure false : ToolM Bool)
  if !okShape then throwPy (.valueErr "Unexpected response format")
  let ev ← liftPy (pyIndexE event_details "event")
  let reqs ← liftPy (pyIndexE ev "requests")
  let reqList ← liftPy (pyIter reqs)
  for request in reqList do
    let rname ← liftPy (pyIndexE request "name")
    if JVal.beq rname content_name then
      let offersRaw ← liftPy (pyGetMethod request "requestOffers" (.arr []))
      let offerList ← liftPy (pyIter offersRaw)
      let mut offers : List JVal := []
      let mut parts : List JVal := []
      for offer in offerList do
        let oreq ← liftPy (pyGetMethod offer "request" (.obj []))
        let oid ← liftPy (pyGetMethod oreq "id" .null)
        let ostatus ← liftPy (pyGetMethod offer "status" (.obj []))
        let osname ← liftPy (pyGetMethod ostatus "name" .null)
        offers := offers ++ [.obj [("id", oid), ("status", osname)]]
        let opartsRaw ← liftPy (pyGetMethod offer "offerParts" (.arr []))
        let opartList ← liftPy (pyIter opartsRaw)
        for part in opartList do
          let n ← liftPy (pyGetMethod part "name" .null)
          let am ← liftPy (pyGetMethod part "amount" .null)
          let atRaw ← liftPy (pyGetMethod part "amountType" (.obj []))
          let atName ← liftPy (pyGetMethod atRaw "name" .null)
          let stv ← liftPy (pyGetMethod part "dateTimeFrom" .null)
          let etv ← liftPy (pyGetMethod part "dateTimeTo" .null)
          let efd ← liftPy (pyGetMethod part "eventFromDate" .null)
          parts := parts ++ [.obj [("name", n), ("amount", am),
            ("amount_type", atName), ("start_time", stv), ("end_time", etv),
            ("event_from_date", efd)]]
      return .obj [("content", rname), ("offers", .arr offers),
        ("parts", .arr parts)]
  return .null

def get_content_details (env : ApiEnv) (event_id : JVal)
    (content_name : JVal) : ToolM JVal :=
  catchDetailErrs (get_content_details_body env event_id content_name)

/-- The action argument of create_event_tool. -/
inductive Action where
  | create
  | create_and_add_suppliers
  | create_add_suppliers_and_send_requests
deriving DecidableEq

/-- The content payload of add_or_update_event_content as built inside
create_event_tool. -/
def contentDataFor (cname : JVal) : JVal :=
  .obj [("requests", .arr [.obj [("request", .obj [("name", cname)])]])]

/-- The try-block of create_event_tool (tools.py): validate, create the
event, create each content with its fetch-after-write detail lookup, add
parts per content, then optionally attach suppliers; early error returns are
ordinary dict results, exceptions propagate to the wrapper.  The fixed
inter-call time.sleep delays are wall-clock effects outside the embedding. -/
def create_event_tool_body (env : ApiEnv) (user_email : String)
    (action : Action) (fdws : JVal) : ToolM JVal := do
  let hasReq ← liftPy (pyContainsE fdws "requirements")
  if !hasReq then
    throwPy (.valueErr "Invalid final_draft_with_suppliers structure. Must contain \x27requirements\x27 and \x27timeline\x27.")
  let hasTl ← liftPy (pyContainsE fdws "timeline")
  if !hasTl then
    throwPy (.valueErr "Invalid final_draft_with_suppliers structure. Must contain \x27requirements\x27 and \x27timeline\x27.")
  let aligned_data ← liftPy
    (align_data_for_application env.localEpochMs fdws user_email)
  let event_result ← callApi (.create_event aligned_data)
    (env.create_event aligned_data)
  let idMissing ← (do
    if !event_result.truthy then pure true
    else do
      let hasId ← liftPy (pyContainsE event_result "id")
      pure (!hasId) : ToolM Bool)
  if idMissing then
    return .obj [("error", .s "Failed to create event or retrieve event ID")]
  let event_id ← liftPy (pyIndexE event_result "id")
  let mut content_to_request_id : List (JVal × JVal) := []
  let event_contents ← liftPy (prepare_event_contents env.localEpochMs fdws)
  for content in event_contents do
    let content_data := contentDataFor content.cname
    let add_content_result ← callApi (.add_content event_id content_data)
      (env.add_content event_id content_data)
    let ok204 := match add_content_result with
      | .obj fs =>
        match objGet fs "status_code" with
        | some (.i n) => n == 204
        | _ => false
      | _ => false
    if ok204 then
      let content_details ← get_content_details env event_id content.cname
      let okOffers ← (do
        if !content_details.truthy then pure false
        else do
          let offs ← liftPy (pyGetMethod content_details "offers" .null)
          pure offs.truthy : ToolM Bool)
      if okOffers then
        let offs ← liftPy (pyGetMethod content_details "offers" .null)
        let firstOffer ← liftPy (pyIndex0 offs)
        let request_id ← liftPy (pyGetMethod firstOffer "id" .null)
        if request_id.truthy then
          content_to_request_id ←
            liftPy (dictSet content_to_request_id content.cname request_id)
        else
          return .obj [("error", .s ("Failed to retrieve request ID for content: " ++ pyStr content.cname))]
      else
        return .obj [("error", .s ("Failed to retrieve content details for: " ++ pyStr content.cname))]
    else
      return .obj [("error", .s ("Failed to add content: " ++ pyStr content.cname))]
  let mut result_contents : List JVal := []
  for content in event_contents do
    let ridOpt ← liftPy (dictGet content_to_request_id content.cname)
    let request_id := ridOpt.getD .null
    if !request_id.truthy then
      return .obj [("error", .s ("Could not find request ID for content: " ++ pyStr content.cname))]
    let mut parts_added : Int := 0
    for part in content.parts do
      let add_part_result ← callApi (.add_part request_id part)
        (env.add_part request_id part)
      if add_part_result.truthy then
        parts_added := parts_added + 1
    result_contents := result_contents ++ [.obj [("name", content.cname),
      ("request_id", request_id), ("parts_added", .i parts_added)]]
  let mut extra : List (String × JVal) := []
  if action == .create_and_add_suppliers ||
      action == .create_add_suppliers_and_send_requests then
    let send_requests := action == .create_add_suppliers_and_send_requests
    let reqs ← liftPy (pyIndexE fdws "requirements")
    let raw_contents ← liftPy (pyIndexE reqs "event_contents")
    let suppliers_by_content ←
      liftPy (prepare_supplier_data raw_contents send_requests)
    for entry in suppliers_by_content do
      let content_name := entry.1
      let ridOpt ← liftPy (dictGet content_to_request_id content_name)
      let request_id := ridOpt.getD .null
      if !request_id.truthy then
        return .obj [("error", .s ("Could not find request ID for content: " ++ pyStr content_name))]
      let supplier_data : JVal := .obj [("suppliers", .arr entry.2)]
      let add_supplier_result ←
        if send_requests then
          callApi (.add_suppliers_send request_id supplier_data)
            (env.add_suppliers_send request_id supplier_data)
        else
          callApi (.add_suppliers request_id supplier_data)
            (env.add_suppliers request_id supplier_data)
      if !add_supplier_result.truthy then
        return .obj [("error", .s ("Failed to add suppliers to content " ++ pyStr content_name))]
    extra := [("added_suppliers", .b true)] ++
      (if send_requests then [("sent_requests", .b true)] else [])
  return .obj ([("event", event_result), ("contents", .arr result_contents)]
    ++ extra)

/-- The error dict produced by each except clause of create_event_tool
(texts stand in for the interpolated str(e)). -/
def toolErrText : PyErr → String
  | .requestExn => "Network error: request exception"
  | .valueErr m => "Validation error: " ++ m
  | e => "An unexpected error occurred: " ++ pyErrStr e

/-- create_event_tool (tools.py): the guard on the state field, the
try-block, and the except clauses mapping exceptions to error dicts.
Returns the tool result together with the trace of remote calls issued. -/
def create_event_tool (env : ApiEnv) (user_email : String) (action : Action)
    (state : SupplierState) : JVal × List ApiCall :=
  if !fieldTruthy state.final_draft_with_suppliers then
    (.obj [("error", .s "final_draft_with_suppliers not found in state. Please build it first.")], [])
  else
    let fdws := state.final_draft_with_suppliers.getD .null
    match create_event_tool_body env user_email action fdws [] with
    | (trace, .ok v) => (v, trace)
    | (trace, .error e) => (.obj [("error", .s (toolErrText e))], trace)

/- ------------------------------------------------------------------ -/
/- fetch_suppliers_tool (tools.py) and its category configuration
   (tools_config.py).  SUPPLIER_CATEGORIES is loaded from the database
   at import time and is therefore an environment parameter.            -/
/- ------------------------------------------------------------------ -/

/-- One row of the category table (the fields get_category_ids reads). -/
structure CategoryInfo where
  name : String
  en_name : Option String

/-- External collaborators of fetch_suppliers_tool: the category table and
the two HTTP endpoints (none models a requests.RequestException). -/
structure FetchEnv where
  supplier_categories : List (Int × CategoryInfo)
  get_bounderies : String → Option JVal
  agent_filter : JVal → Option JVal

def ALLOWED_CATEGORIES : List String := [
  "activity", "hotel", "conference_meeting_space", "event_space",
  "party_space", "restaurant", "bus", "Transportation", "Catering", "Yoga"]

def VALID_SORT_FIELDS : List String := [
  "supplier_name", "rating", "created_at", "checked_at", "created_in_el"]

/-- get_category_ids (tools_config.py): match the searched name (lowercased,
trailing s stripped) as a substring of either name column, and keep ids whose
English name is a prefix of some allowed category. -/
def get_category_ids (cats : List (Int × CategoryInfo))
    (category_name : String) : List Int :=
  cats.foldl (fun acc entry =>
    let db_name := sToLower entry.2.name
    let db_en_name := match entry.2.en_name with
      | some e => sToLower e
      | none => ""
    let search_name := sDropRightWhile (fun c => c = 's') (sToLower category_name)
    if substrOccurs search_name db_name ||
        substrOccurs search_name db_en_name then
      if ALLOWED_CATEGORIES.any (fun allowed =>
          sIsPrefixOf db_en_name (sToLower allowed)) then
        acc ++ [entry.1]
      else acc
    else acc) []

/-- The remote calls issued by fetch_suppliers_tool. -/
inductive FetchCall where
  | bounderies (location : String)
  | agent_filter (params : JVal)

/-- `value[:10]` of the suppliers slice. -/
def pySlice10 : JVal → Except PyErr JVal
  | .arr xs => .ok (.arr (xs.take 10))
  | .s str => .ok (.s (String.mk (str.toList.take 10)))
  | _ => .error .typeErr

/-- The error dict of fetch_suppliers_tool's validation returns (the
debug_info dict is empty: every statement filling it is commented out in
the source). -/
def fetchErrorDict (msg : String) : JVal :=
  .obj [("error", .s msg), ("debug_info", .obj [])]

/-- The boundary coordinates added to the request params
(params.update({..}) reading boundaries[north][latitude] and so on); a
KeyError/TypeError here reaches the crashing except handler. -/
def boundary_params (boundaries : JVal) : Except PyErr (List (String × JVal)) := do
  let bn ← pyIndexE boundaries "north"
  let nl ← pyIndexE bn "latitude"
  let bs ← pyIndexE boundaries "south"
  let sl ← pyIndexE bs "latitude"
  let be ← pyIndexE boundaries "east"
  let elg ← pyIndexE be "longitude"
  let bw ← pyIndexE boundaries "west"
  let wl ← pyIndexE bw "longitude"
  return [("north", nl), ("south", sl), ("east", elg), ("west", wl)]

/-- The final request/response step of fetch_suppliers_tool.  A failure in
this region reaches the tool's except handlers, whose first statement
`debug_info["steps"].append(...)` itself raises KeyError (debug_info has no
"steps" entry, the assignment being commented out in the source): the tool
run crashes, modelled by the .error result. -/
def fetchFinishResult (env : FetchEnv) (params : JVal) : Except String JVal :=
  match env.agent_filter params with
  | none => .error "KeyError: \x27steps\x27"
  | some data =>
    match pyIndexE data "total" with
    | .error _ => .error "KeyError: \x27steps\x27"
    | .ok total =>
      match pyIndexE data "suppliers" with
      | .error _ => .error "KeyError: \x27steps\x27"
      | .ok sup =>
        match pySlice10 sup with
        | .error _ => .error "KeyError: \x27steps\x27"
        | .ok sliced => .ok (.obj [("total", total), ("suppliers", sliced)])

def fetchFinish (env : FetchEnv) (params : JVal) (tr : List FetchCall) :
    Except String JVal × List FetchCall :=
  (fetchFinishResult env params, tr ++ [.agent_filter params])

/-- The params dict after the boundaries update and the categories entry. -/
def fetch_with_boundaries (env : FetchEnv) (base : List (String × JVal))
    (category_ids : List Int) (boundaries : JVal) (tr : List FetchCall) :
    Except String JVal × List FetchCall :=
  let catParams : List (String × JVal) :=
    if category_ids.isEmpty then []
    else [("categories",
      .s (String.intercalate "," (category_ids.map (fun i => toString i))))]
  if boundaries.truthy then
    match boundary_params boundaries with
    | .error _ => (.error "KeyError: \x27steps\x27", tr)
    | .ok bParams => fetchFinish env (.obj (base ++ bParams ++ catParams)) tr
  else fetchFinish env (.obj (base ++ catParams)) tr

/-- fetch_suppliers_tool (tools.py): clamp the limit into [1, 10], validate
the sort field, resolve categories, optionally fetch location boundaries,
then issue the filtered supplier request, returning at most 10 suppliers. -/
def fetch_suppliers_tool (env : FetchEnv) (sname location : Option String)
    (minRating maxRating matchStatus : JVal)
    (categories : Option (List String)) (limit0 offset : Int)
    (sort_by sort_order fields : String) :
    Except String JVal × List FetchCall :=
  let limit := max 1 (min 10 limit0)
  if !(VALID_SORT_FIELDS.contains sort_by) then
    (.ok (fetchErrorDict ("Invalid sort_by field: " ++ sort_by ++
      ". Allowed fields are: " ++
      String.intercalate ", " VALID_SORT_FIELDS)), [])
  else
    let cats := categories.getD []
    let category_ids : List Int := cats.foldl (fun acc c =>
      if ALLOWED_CATEGORIES.contains c then
        acc ++ get_category_ids env.supplier_categories c
      else acc) []
    let invalid_categories : List String := cats.foldl (fun acc c =>
      if ALLOWED_CATEGORIES.contains c then
        if (get_category_ids env.supplier_categories c).isEmpty then acc ++ [c]
        else acc
      else acc ++ [c]) []
    if !cats.isEmpty && category_ids.isEmpty then
      (.ok (fetchErrorDict ("No valid categories found. Invalid categories: " ++
        String.intercalate ", " invalid_categories ++
        ". Allowed categories are: " ++
        String.intercalate ", " ALLOWED_CATEGORIES)), [])
    else
      let base : List (String × JVal) := [
        ("fields", .s fields),
        ("name", match sname with | some n => .s n | none => .null),
        ("minRating", minRating),
        ("maxRating", maxRating),
        ("matchStatus", matchStatus),
        ("limit", .i limit),
        ("offset", .i offset),
        ("sort_by", .s sort_by),
        ("sort_order", .s sort_order)]
      match location with
      | none => fetch_with_boundaries env base category_ids .null []
      | some loc =>
        if loc = "" then fetch_with_boundaries env base category_ids .null []
        else
          match env.get_bounderies loc with
          | none => (.error "KeyError: \x27steps\x27", [.bounderies loc])
          | some bd =>
            match pyGetMethod bd "boundaries" .null with
            | .error _ => (.error "KeyError: \x27steps\x27", [.bounderies loc])
            | .ok boundaries =>
              fetch_with_boundaries env base category_ids boundaries
                [.bounderies loc]

/- ------------------------------------------------------------------ -/
/- Concrete fixtures used by the theorems: the reconciliation scenario
   of spec §8 (2 contents; the first with 2 parts, the second with 1
   part and 1 eligible supplier), backend environments, loop stubs and
   node states.                                                         -/
/- ------------------------------------------------------------------ -/

/-- A drafted (timeless) part as it appears in the final draft. -/
def scenarioPart (nm : String) : JVal :=
  .obj [("name", .s nm), ("amount", .i 1), ("amount_type", .s "PIECES"),
    ("timeless", .b true)]

/-- The same part after prepare_parts_data. -/
def preparedPart (nm : String) : JVal :=
  .obj [("name", .s nm), ("timeless", .b true),
    ("amountType", .obj [("name", .s "PIECES")]), ("amount", .i 1),
    ("commentByCreator", .s "")]

/-- The supplier-augmented final draft of the reconciliation scenario. -/
def scenarioDraft : JVal := .obj [
  ("requirements", .obj [
    ("event_type", .s "Kickoff"),
    ("start_date", .s "2025-03-10"),
    ("end_date", .s "2025-03-11"),
    ("participants", .s "20"),
    ("location", .s "Gothenburg"),
    ("event_contents", .arr [
      .obj [("content", .s "Conference Hotel"),
            ("parts", .arr [scenarioPart "Conference room",
              scenarioPart "Single rooms"]),
            ("potential_suppliers", .arr [])],
      .obj [("content", .s "Activity"),
            ("parts", .arr [scenarioPart "Team building"]),
            ("potential_suppliers", .arr [
              .obj [("supplier_name", .s "Adventure Gothenburg"),
                    ("potential_supplier_id", .i 3001),
                    ("el_supplier_id", .i 4001001)]])]]),
    ("additional_requirements", .s "eco")]),
  ("timeline", .arr [])]

def scenarioState : SupplierState :=
  ⟨[], none, none, none, some scenarioDraft, none, none, none⟩

/-- A concrete instance of the host-timezone epoch parameter (UTC). -/
def stdEpochMs (t : Nat × Nat × Nat) : Int := civilDay t * 86400000

/-- The event-create payload align_data_for_application produces for the
scenario (two-day event, hence template 1239948). -/
def scenarioAligned : JVal := .obj [
  ("templateId", .i 1239948),
  ("fromDate", .i 1741564800000),
  ("toDate", .i 1741651200000),
  ("name", .s "Kickoff"),
  ("participantAmount", .s "20"),
  ("eventAddress", .obj [("country", .s "Sweden"),
    ("displayAddress", .s "Gothenburg")]),
  ("extraRequirements", .s "eco"),
  ("email", .s "user@example.com"),
  ("escapeAccommodation", .b true),
  ("eventCoach", .b false),
  ("interestedInOtherDates", .b false),
  ("isJulbordEvent", .b false),
  ("isOnboardingEvent", .b false),
  ("addAccommodationPartsNotPresentInTemplate", .b false)]

def contentData1 : JVal := contentDataFor (.s "Conference Hotel")
def contentData2 : JVal := contentDataFor (.s "Activity")

/-- The event-detail body answered by the backend after the content writes
(both requests visible, with their assigned request-offer ids). -/
def detailResponse : JVal := .obj [("event", .obj [("requests", .arr [
  .obj [("name", .s "Conference Hotel"), ("requestOffers", .arr [
    .obj [("request", .obj [("id", .i 501)]),
          ("status", .obj [("name", .s "NEW")]),
          ("offerParts", .arr [])]])],
  .obj [("name", .s "Activity"), ("requestOffers", .arr [
    .obj [("request", .obj [("id", .i 502)]),
          ("status", .obj [("name", .s "NEW")]),
          ("offerParts", .arr [])]])]])])]

/-- A backend on which every remote call succeeds. -/
def envAllGood : ApiEnv :=
  ⟨fun _ => some (.obj [("id", .i 7001)]),
   fun _ _ => some (.obj [("status_code", .i 204)]),
   fun _ => some detailResponse,
   fun _ _ => some (.obj [("id", .i 9)]),
   fun _ _ => some (.obj [("ok", .b true)]),
   fun _ _ => some (.obj [("ok", .b true)]),
   stdEpochMs⟩

/-- Like envAllGood, but the second content write answers a non-204 body. -/
def envContent2Fail : ApiEnv :=
  ⟨envAllGood.create_event,
   fun _ cd => if JVal.beq cd contentData2 then some (.obj [("status_code", .i 500)])
     else some (.obj [("status_code", .i 204)]),
   envAllGood.get_event_detail, envAllGood.add_part,
   envAllGood.add_suppliers, envAllGood.add_suppliers_send, stdEpochMs⟩

/-- The calls issued on the scenario up to and including the three part
writes (event create, then per content a write plus the fetch-after-write
detail read, then the parts grouped by content). -/
def scenarioTrace8 : List ApiCall := [
  .create_event scenarioAligned,
  .add_content (.i 7001) contentData1,
  .get_event_detail (.i 7001),
  .add_content (.i 7001) contentData2,
  .get_event_detail (.i 7001),
  .add_part (.i 501) (preparedPart "Conference room"),
  .add_part (.i 501) (preparedPart "Single rooms"),
  .add_part (.i 502) (preparedPart "Team building")]

/- C5 fixtures: a document whose shape matches EVENT_DATA_MAPPING exactly,
   and the value its round trip actually produces. -/

def mapperInput : JVal := .obj [
  ("event", .obj [("id", .i 1), ("name", .s "Kickoff"), ("fromDate", .i 2),
    ("toDate", .i 3), ("participantAmount", .s "20"),
    ("eventAddress", .obj [("displayAddress", .s "Gbg")]),
    ("extraRequirements", .s "none"), ("requests", .arr [])]),
  ("name", .s "nm"),
  ("requestOffers", .arr []),
  ("offerParts", .arr []),
  ("amount", .i 5),
  ("amountType", .obj [("name", .s "PEOPLE")]),
  ("dateTimeFrom", .i 6),
  ("dateTimeTo", .i 7)]

def mapperRoundTripOutput : JVal := .obj [
  ("event", .obj [("id", .i 1), ("name", .s "Kickoff"), ("fromDate", .i 2),
    ("toDate", .i 3), ("participantAmount", .s "20"),
    ("eventAddress", .obj [("displayAddress", .s "Gbg")]),
    ("extraRequirements", .s "none"), ("requests", .arr [])]),
  ("request", .obj [("name", .s "nm"), ("requestOffers", .arr [])]),
  ("offer", .obj [("offerParts", .arr [])]),
  ("part", .obj [("name", .s "nm"), ("amount", .i 5),
    ("amountType", .obj [("name", .s "PEOPLE")]),
    ("dateTimeFrom", .i 6), ("dateTimeTo", .i 7)])]

/-- The restriction of EVENT_DATA_MAPPING to the eight event-level keys. -/
def EVENT_SUB_MAPPING : JVal := .obj [
  ("id", .s "event.id"),
  ("event_type", .s "event.name"),
  ("start_date", .s "event.fromDate"),
  ("end_date", .s "event.toDate"),
  ("participants", .s "event.participantAmount"),
  ("location", .s "event.eventAddress.displayAddress"),
  ("additional_requirements", .s "event.extraRequirements"),
  ("event_contents", .s "event.requests")]

/-- The matching restriction of REVERSE_EVENT_DATA_MAPPING. -/
def REVERSE_EVENT_SUB_MAPPING : List (String × List String) := [
  ("id", ["event", "id"]),
  ("event_type", ["event", "name"]),
  ("start_date", ["event", "fromDate"]),
  ("end_date", ["event", "toDate"]),
  ("participants", ["event", "participantAmount"]),
  ("location", ["event", "eventAddress", "displayAddress"]),
  ("additional_requirements", ["event", "extraRequirements"]),
  ("event_contents", ["event", "requests"])]

/-- A document shaped exactly as the event-level sub-mapping (the eight
event paths, in the order the reverse mapping writes them). -/
def eventShapedDoc (v1 v2 v3 v4 v5 v6 v7 v8 : JVal) : JVal :=
  .obj [("event", .obj [("id", v1), ("name", v2), ("fromDate", v3),
    ("toDate", v4), ("participantAmount", v5),
    ("eventAddress", .obj [("displayAddress", v6)]),
    ("extraRequirements", v7), ("requests", v8)])]

/- Node-level fixtures. -/

def priorMsgA : Msg := ⟨1, .human, "hi", []⟩

/-- A state in the FindSuppliers phase with a non-empty log and
final_draft_with_suppliers already set. -/
def priorStateA : SupplierState :=
  ⟨[priorMsgA], none, none, none, some (.obj [("old", .i 1)]), none, none,
    none⟩

/-- A state with only a conversation log. -/
def priorStateB : SupplierState :=
  ⟨[priorMsgA], none, none, none, none, none, none, none⟩

/-- An oracle response finalizing FindSuppliers with a payload different
from the one already stored. -/
def overwriteResp : Msg :=
  ⟨2, .ai,
    "Klart! ```json\n\x7b\"final_draft_with_suppliers\": \x7b\"new\": 2\x7d\x7d\n```",
    []⟩

/-- An utterance that signals timeline finalization but carries no
parseable payload. -/
def unparseableTimelineResp : Msg :=
  ⟨2, .ai, "sorry, no JSON --timeline_finalized--", []⟩

/-- An utterance mentioning the FindSuppliers payload key with no
parseable payload. -/
def unparseableFdwsResp : Msg :=
  ⟨2, .ai, "final_draft_with_suppliers pending...", []⟩

/-- An utterance with the final-draft marker and no parseable payload. -/
def unparseableDraftResp : Msg :=
  ⟨2, .ai, "final_draft_approved ok", []⟩

/-- A gather-phase oracle response calling the Build tool with a parseable
requirements payload. -/
def gatherResp : Msg :=
  ⟨2, .ai, "",
    [⟨"Build", .obj [("requirements",
      .s "\x7b\"event_type\": \"Kickoff\"\x7d")]⟩]⟩

/-- The summary turn draft_timeline_node emits when it finalizes an empty
timeline (the parse-failure case). -/
def emptyTimelineSummary : String :=
  "Here\x27s the final timeline for your event:\n\n| Date | Time | Event | Duration |\n|------|------|-------|----------|\n\n\nAdditional preferences:\n\n\nThe timeline has been approved and we\x27re moving on to the next step in planning your event."

/-- The summary turn final_draft_node emits when it finalizes an empty
draft (the parse-failure case). -/
def emptyDraftSummary : String :=
  "Here\x27s the final draft for your event:\n\nFinal Event Draft:\n\n\n\nThe final draft has been approved and we\x27re moving on to the next step in planning your event."

/- Action-loop stubs. -/

def loopOracle : List Msg → Msg := fun msgs =>
  if msgs.length < 3 then ⟨50, .ai, "working", [⟨"fetch_suppliers_tool", .null⟩]⟩
  else ⟨51, .ai, "done", []⟩

def loopExec : Msg → List Msg := fun _ => [⟨52, .tool, "result", []⟩]

def busyOracle : List Msg → Msg := fun _ =>
  ⟨53, .ai, "more", [⟨"fetch_suppliers_tool", .null⟩]⟩

/- fetch_suppliers_tool fixtures. -/

/-- A supplier backend answering 12 suppliers. -/
def envFetch12 : FetchEnv :=
  ⟨[], fun _ => none,
   fun _ => some (.obj [("total", .i 12),
     ("suppliers", .arr (List.replicate 12 .null))])⟩

/-- The request params the tool sends for limit0 = 15 with no filters. -/
def fetchParams15 : JVal := .obj [
  ("fields", .s "f"),
  ("name", .null),
  ("minRating", .i 0),
  ("maxRating", .i 5),
  ("matchStatus", .null),
  ("limit", .i 10),
  ("offset", .i 0),
  ("sort_by", .s "supplier_name"),
  ("sort_order", .s "asc")]

/- ------------------------------------------------------------------ -/
/- Theorems.                                                            -/
/- ------------------------------------------------------------------ -/

/-- Folding the removals of every id of `ms` over any log whose ids all come
from `ms` empties it. -/
theorem foldl_removes_nil (ms : List Msg) : ∀ (cur : List Msg),
    (∀ m ∈ cur, ∃ x ∈ ms, m.id = x.id) →
    (ms.map (fun x => MsgUpdate.remove x.id)).foldl applyMsgUpdate cur = [] := by
  induction ms with
  | nil =>
    intro cur h
    cases cur with
    | nil => rfl
    | cons m rest =>
      obtain ⟨x, hx, _⟩ := h m (by simp)
      exact absurd hx (List.not_mem_nil x)
  | cons y ys ih =>
    intro cur h
    simp only [List.map_cons, List.foldl_cons, applyMsgUpdate]
    apply ih
    intro m hm
    rw [List.mem_filter] at hm
    obtain ⟨hmc, hne⟩ := hm
    obtain ⟨x, hx, hid⟩ := h m hmc
    rcases List.mem_cons.mp hx with rfl | hx'
    · exact absurd hne (by simp [hid])
    · exact ⟨x, hx', hid⟩

/-- The compaction pattern of the phase nodes: removing every prior message
and appending one summary turn leaves exactly that turn. -/
theorem add_messages_compact (ms : List Msg) (m : Msg) :
    add_messages ms (ms.map (fun x => MsgUpdate.remove x.id) ++ [.msg m])
      = [m] := by
  unfold add_messages
  rw [List.foldl_append, foldl_removes_nil ms ms (fun x hx => ⟨x, hx, rfl⟩)]
  rfl

/-- Appending one message whose id is fresh extends the log. -/
theorem add_messages_append_fresh (ms : List Msg) (r : Msg)
    (h : ∀ x ∈ ms, x.id ≠ r.id) :
    add_messages ms [.msg r] = ms ++ [r] := by
  unfold add_messages
  simp only [List.foldl_cons, List.foldl_nil, applyMsgUpdate]
  rw [if_neg]
  intro hany
  rw [List.any_eq_true] at hany
  obtain ⟨x, hx, hbeq⟩ := hany
  exact h x hx (by simpa using hbeq)

/-- C1: the entry router route_start evaluates, top to bottom with first
match winning: final_draft_with_suppliers set, then final_draft set (both to
FindSuppliers), then approved_timeline set (FinalDraft), then requirements
set (DraftTimeline), else GatherRequirements; it is a pure function of the
presence (Python truthiness of state.get) of those four fields, and the
empty state routes to GatherRequirements. -/
theorem claim_C1_router_precedence :
    (∀ s : SupplierState, fieldTruthy s.final_draft_with_suppliers = true →
      route_start s = Node.FindSuppliersAgent) ∧
    (∀ s : SupplierState, fieldTruthy s.final_draft_with_suppliers = false →
      fieldTruthy s.final_draft = true →
      route_start s = Node.FindSuppliersAgent) ∧
    (∀ s : SupplierState, fieldTruthy s.final_draft_with_suppliers = false →
      fieldTruthy s.final_draft = false →
      fieldTruthy s.approved_timeline = true →
      route_start s = Node.FinalDraft) ∧
    (∀ s : SupplierState, fieldTruthy s.final_draft_with_suppliers = false →
      fieldTruthy s.final_draft = false →
      fieldTruthy s.approved_timeline = false →
      fieldTruthy s.requirements = true →
      route_start s = Node.DraftEventTimeline) ∧
    (∀ s : SupplierState, fieldTruthy s.final_draft_with_suppliers = false →
      fieldTruthy s.final_draft = false →
      fieldTruthy s.approved_timeline = false →
      fieldTruthy s.requirements = false →
      route_start s = Node.GatherRequirements) ∧
    (∀ s1 s2 : SupplierState,
      fieldTruthy s1.final_draft_with_suppliers
        = fieldTruthy s2.final_draft_with_suppliers →
      fieldTruthy s1.final_draft = fieldTruthy s2.final_draft →
      fieldTruthy s1.approved_timeline = fieldTruthy s2.approved_timeline →
      fieldTruthy s1.requirements = fieldTruthy s2.requirements →
      route_start s1 = route_start s2) ∧
    route_start emptySupplierState = Node.GatherRequirements :=
  ⟨fun s h1 => by simp [route_start, h1],
   fun s h1 h2 => by simp [route_start, h1, h2],
   fun s h1 h2 h3 => by simp [route_start, h1, h2, h3],
   fun s h1 h2 h3 h4 => by simp [route_start, h1, h2, h3, h4],
   fun s h1 h2 h3 h4 => by simp [route_start, h1, h2, h3, h4],
   fun s1 s2 h1 h2 h3 h4 => by unfold route_start; rw [h1, h2, h3, h4],
   rfl⟩

/-- Witness for C1 at concrete states: a state with
final_draft_with_suppliers set routes to FindSuppliers, and a state with
only requirements set routes to DraftTimeline. -/
theorem claim_C1_router_precedence_witness :
    route_start priorStateA = Node.FindSuppliersAgent ∧
    route_start ⟨[], some (.s "req"), none, none, none, none, none, none⟩
      = Node.DraftEventTimeline :=
  ⟨claim_C1_router_precedence.1 priorStateA rfl,
   claim_C1_router_precedence.2.2.2.1
     ⟨[], some (.s "req"), none, none, none, none, none, none⟩
     rfl rfl rfl rfl⟩

/-- C9: the forward-edge wiring: after GatherRequirements control passes to
DraftTimeline iff requirements is set, else END; after DraftTimeline to
FinalDraft iff approved_timeline is set, else END; after FinalDraft to
FindSuppliers iff final_draft is set, else END; the FindSuppliers agent node
has no external forward edge: it goes to its tool-execution node exactly
when the last message requests tool calls, to END when it requests none,
and the tool node always returns to the agent node. -/
theorem claim_C9_forward_edges :
    (∀ s : SupplierState,
      (nextNode .GatherRequirements s = .DraftEventTimeline ↔
        fieldTruthy s.requirements = true) ∧
      (nextNode .GatherRequirements s = .END ↔
        fieldTruthy s.requirements = false)) ∧
    (∀ s : SupplierState,
      (nextNode .DraftEventTimeline s = .FinalDraft ↔
        fieldTruthy s.approved_timeline = true) ∧
      (nextNode .DraftEventTimeline s = .END ↔
        fieldTruthy s.approved_timeline = false)) ∧
    (∀ s : SupplierState,
      (nextNode .FinalDraft s = .FindSuppliersAgent ↔
        fieldTruthy s.final_draft = true) ∧
      (nextNode .FinalDraft s = .END ↔
        fieldTruthy s.final_draft = false)) ∧
    (∀ (s : SupplierState) (last : Msg), s.messages.getLast? = some last →
      (nextNode .FindSuppliersAgent s = .FindSuppliersAction ↔
        last.tool_calls ≠ []) ∧
      (nextNode .FindSuppliersAgent s = .END ↔ last.tool_calls = [])) ∧
    (∀ s : SupplierState, nextNode .FindSuppliersAction s
      = .FindSuppliersAgent) ∧
    (∀ s : SupplierState, nextNode .START s = route_start s) := by
  refine ⟨?_, ?_, ?_, ?_, fun _ => rfl, fun _ => rfl⟩
  · intro s
    cases h : fieldTruthy s.requirements <;> simp [nextNode, route_gather, h]
  · intro s
    cases h : fieldTruthy s.approved_timeline <;>
      simp [nextNode, route_draft_timeline, h]
  · intro s
    cases h : fieldTruthy s.final_draft <;>
      simp [nextNode, route_final_draft, h]
  · intro s last h
    cases htc : last.tool_calls with
    | nil => simp [nextNode, should_continue, h, htc]
    | cons tc rest => simp [nextNode, should_continue, h, htc]

/-- Witness for C9 at concrete states. -/
theorem claim_C9_forward_edges_witness :
    nextNode .GatherRequirements
      ⟨[], some (.s "req"), none, none, none, none, none, none⟩
      = .DraftEventTimeline ∧
    nextNode .GatherRequirements emptySupplierState = .END ∧
    nextNode .FindSuppliersAgent priorStateB = .END :=
  ⟨(claim_C9_forward_edges.1 _).1.mpr rfl,
   (claim_C9_forward_edges.1 emptySupplierState).2.mpr rfl,
   ((claim_C9_forward_edges.2.2.2.1 priorStateB priorMsgA rfl).2).mpr rfl⟩

/-- The one-step unfolding of the action loop. -/
theorem runLoop_step (oracle : List Msg → Msg) (execTools : Msg → List Msg)
    (fuel : Nat) (msgs : List Msg) :
    runLoop oracle execTools (fuel+1) msgs =
      if (oracle msgs).tool_calls.isEmpty then .done (msgs ++ [oracle msgs])
      else runLoop oracle execTools fuel
        (msgs ++ [oracle msgs] ++ execTools (oracle msgs)) := by
  cases h : (oracle msgs).tool_calls.isEmpty with
  | true =>
    simp [runLoop, should_continue, stateWithMessages, List.getLast?_concat, h]
  | false =>
    simp [runLoop, should_continue, stateWithMessages, List.getLast?_concat, h]

/-- C2: the action loop enforces the configured iteration bound (default
25): when the oracle returns a response with no tool calls within the bound
the loop terminates with Done, and when every response within the bound
requests tool calls the loop surfaces LoopExhausted instead of running
forever.  (The loop runtime is the langgraph library, not part of src/;
runLoop is modelled from the spec on top of the in-repo decision function
should_continue and edge wiring.) -/
theorem claim_C2_action_loop_bound :
    DEFAULT_RECURSION_LIMIT = 25 ∧
    ∀ (oracle : List Msg → Msg) (execTools : Msg → List Msg)
      (bound : Nat) (init : List Msg),
      ((∃ k, k < bound ∧
          (oracle (loopTrace oracle execTools k init)).tool_calls = []) →
        ∃ finalLog, runLoop oracle execTools bound init = .done finalLog) ∧
      ((∀ k, k < bound →
          (oracle (loopTrace oracle execTools k init)).tool_calls ≠ []) →
        runLoop oracle execTools bound init = .exhausted) := by
  refine ⟨rfl, fun oracle execTools bound => ?_⟩
  induction bound with
  | zero =>
    intro init
    exact ⟨fun ⟨k, hk, _⟩ => absurd hk (Nat.not_lt_zero k), fun _ => rfl⟩
  | succ b ih =>
    intro init
    constructor
    · rintro ⟨k, hk, hk0⟩
      rw [runLoop_step]
      by_cases h0 : (oracle init).tool_calls.isEmpty
      · exact ⟨_, by rw [if_pos h0]⟩
      · rw [if_neg h0]
        cases k with
        | zero =>
          exact absurd (List.isEmpty_iff.mpr (by simpa [loopTrace] using hk0)) h0
        | succ j =>
          exact (ih _).1
            ⟨j, Nat.lt_of_succ_lt_succ hk, by simpa [loopTrace] using hk0⟩
    · intro hall
      rw [runLoop_step]
      have h0 : ¬ (oracle init).tool_calls.isEmpty = true := by
        intro hemp
        exact hall 0 (Nat.succ_pos b)
          (by simpa [loopTrace] using List.isEmpty_iff.mp hemp)
      rw [if_neg h0]
      exact (ih _).2 (fun k hkb => by
        simpa [loopTrace] using hall (k+1) (Nat.succ_lt_succ hkb))

/-- Witness for C2: an oracle stub that stops requesting actions on its
third turn terminates with Done within the default bound of 25, and one
that always requests actions exhausts the bound. -/
theorem claim_C2_action_loop_bound_witness :
    (∃ finalLog, runLoop loopOracle loopExec 25 [] = .done finalLog) ∧
    runLoop busyOracle loopExec 25 [] = .exhausted :=
  ⟨(claim_C2_action_loop_bound.2 loopOracle loopExec 25 []).1
      ⟨2, by decide, rfl⟩,
   (claim_C2_action_loop_bound.2 busyOracle loopExec 25 []).2
      (fun k hk => by simp [busyOracle])⟩

/-- C3 (evaluation at the failing input): on the reconciliation scenario
with every remote call succeeding and supplier attachment requested, the
tool issues 1 event-create, then per content (in declaration order) a
content-create followed by an event-detail fetch, then the 3 part calls
grouped by parent content — but then crashes with KeyError \x27name\x27
inside prepare_supplier_data (which is handed the raw event_contents, keyed
"content" rather than "name") before any supplier-attachment call, and the
generic handler turns this into an error result.  The supplier handlers are
universally quantified: they are never invoked. -/
theorem claim_C3_reconciliation_supplier_step :
    ∀ (fs1 fs2 : JVal → JVal → Option JVal),
    create_event_tool
      ⟨envAllGood.create_event, envAllGood.add_content,
       envAllGood.get_event_detail, envAllGood.add_part, fs1, fs2, stdEpochMs⟩
      "user@example.com" .create_and_add_suppliers scenarioState
      = (.obj [("error", .s "An unexpected error occurred: \x27name\x27")],
         scenarioTrace8) ∧
    scenarioTrace8.all (fun c => !c.isSupplierAttach) = true ∧
    (scenarioTrace8.filter (fun c => c.isPartCall)).length = 3 :=
  fun _ _ => ⟨rfl, rfl, rfl⟩

/-- C4 counterexample: when the second content-create answers a non-204
body, create_event_tool does NOT continue with the remaining units and does
NOT return a per-content result map reporting PartialFailure — it aborts
immediately with an error dict, no part call is ever issued, and the result
has no contents key. -/
theorem claim_C4_partial_failure_counterexample :
    create_event_tool envContent2Fail "user@example.com" .create scenarioState
      = (.obj [("error", .s "Failed to add content: Activity")],
         [.create_event scenarioAligned,
          .add_content (.i 7001) contentData1,
          .get_event_detail (.i 7001),
          .add_content (.i 7001) contentData2]) ∧
    pyGet (create_event_tool envContent2Fail "user@example.com" .create
      scenarioState).1 "contents" = none ∧
    ((create_event_tool envContent2Fail "user@example.com" .create
      scenarioState).2.all (fun c => !c.isPartCall)) = true :=
  ⟨rfl, rfl, rfl⟩

/-- C4 (amended): failure semantics of create_event_tool on the
reconciliation scenario.  (i) Failure of the initial event-create aborts
the whole operation with only that one remote call issued.  (ii) A
content-step failure also aborts immediately with an error result: the
remaining contents, parts and suppliers are skipped (no partial
continuation).  (iii) Only part-step failures are partial: a falsy response
to one part call leaves the loop running, every remaining part call is
still issued, and the result is the plain per-content map whose
parts_added counts reflect the failure — with no PartialFailure marker of
any kind.  Handlers that the respective path never reaches are universally
quantified. -/
theorem claim_C4_failure_semantics_amended :
    (∀ (fad : JVal → JVal → Option JVal) (fd : JVal → Option JVal)
       (fp fs1 fs2 : JVal → JVal → Option JVal),
      create_event_tool ⟨fun _ => none, fad, fd, fp, fs1, fs2, stdEpochMs⟩
        "user@example.com" .create scenarioState
      = (.obj [("error", .s "Network error: request exception")],
         [.create_event scenarioAligned])) ∧
    (∀ (fp fs1 fs2 : JVal → JVal → Option JVal),
      create_event_tool
        ⟨fun _ => some (.obj [("id", .i 7001)]),
         (fun _ cd => if JVal.beq cd contentData2 then
            some (.obj [("status_code", .i 500)])
          else some (.obj [("status_code", .i 204)])),
         (fun _ => some detailResponse), fp, fs1, fs2, stdEpochMs⟩
        "user@example.com" .create scenarioState
      = (.obj [("error", .s "Failed to add content: Activity")],
         [.create_event scenarioAligned,
          .add_content (.i 7001) contentData1,
          .get_event_detail (.i 7001),
          .add_content (.i 7001) contentData2])) ∧
    (∀ (fs1 fs2 : JVal → JVal → Option JVal),
      create_event_tool
        ⟨envAllGood.create_event, envAllGood.add_content,
         envAllGood.get_event_detail,
         (fun _ p => if JVal.beq p (preparedPart "Single rooms") then
            some (.obj [])
          else some (.obj [("id", .i 9)])),
         fs1, fs2, stdEpochMs⟩
        "user@example.com" .create scenarioState
      = (.obj [("event", .obj [("id", .i 7001)]),
          ("contents", .arr [
            .obj [("name", .s "Conference Hotel"), ("request_id", .i 501),
              ("parts_added", .i 1)],
            .obj [("name", .s "Activity"), ("request_id", .i 502),
              ("parts_added", .i 1)]])],
         scenarioTrace8)) :=
  ⟨fun _ _ _ _ _ => rfl, fun _ _ _ => rfl, fun _ _ => rfl⟩

/-- C5 counterexample: the mapper round-trip law fails.  For the document
mapperInput, whose shape matches EVENT_DATA_MAPPING exactly (every dotted
source path resolves), lifting the projection back yields
mapperRoundTripOutput, which differs from the input: the input's top-level
name key is gone and request/offer/part wrapper keys appear instead,
because REVERSE_EVENT_DATA_MAPPING is not the path-reversal of
EVENT_DATA_MAPPING on the request-level keys. -/
theorem claim_C5_mapper_roundtrip_counterexample :
    reverse_map_event_data (map_event_data mapperInput EVENT_DATA_MAPPING)
        REVERSE_EVENT_DATA_MAPPING = some mapperRoundTripOutput ∧
    mapperRoundTripOutput ≠ mapperInput ∧
    pyGet mapperInput "name" = some (.s "nm") ∧
    pyGet mapperRoundTripOutput "name" = none ∧
    pyGet mapperInput "request" = none ∧
    pyGet mapperRoundTripOutput "request"
      = some (.obj [("name", .s "nm"), ("requestOffers", .arr [])]) := by
  refine ⟨rfl, ?_, rfl, rfl, rfl, rfl⟩
  intro h
  have h2 : pyGet mapperRoundTripOutput "request" = pyGet mapperInput "request" := by
    rw [h]
  rw [show pyGet mapperRoundTripOutput "request"
        = some (.obj [("name", .s "nm"), ("requestOffers", .arr [])]) from rfl,
      show pyGet mapperInput "request" = none from rfl] at h2
  simp at h2

set_option maxHeartbeats 3200000 in
/-- C5 (amended): the round-trip law does hold for the event-level
fragment of the mapping, where the reverse paths are the forward paths:
for every document shaped exactly as the eight event.* source paths,
lifting the projection back returns the document unchanged. -/
theorem claim_C5_mapper_roundtrip_amended :
    ∀ v1 v2 v3 v4 v5 v6 v7 v8 : JVal,
      reverse_map_event_data
        (map_event_data (eventShapedDoc v1 v2 v3 v4 v5 v6 v7 v8)
          EVENT_SUB_MAPPING)
        REVERSE_EVENT_SUB_MAPPING
      = some (eventShapedDoc v1 v2 v3 v4 v5 v6 v7 v8) :=
  fun _ _ _ _ _ _ _ _ => rfl

/-- C6 counterexample: there is no StaleTransition guard.  In a state whose
final_draft_with_suppliers is already set, a finalizing response carrying a
different payload makes find_suppliers_node silently overwrite the field:
the update succeeds (no exception), carries only the appended response in
its messages, and applying it replaces the old value with the new one. -/
theorem claim_C6_stale_transition_counterexample :
    priorStateA.final_draft_with_suppliers = some (.obj [("old", .i 1)]) ∧
    find_suppliers_update priorStateA overwriteResp
      = .ok ⟨[.msg overwriteResp], none, none, none,
          some (.obj [("new", .i 2)]), none, none, none⟩ ∧
    (JVal.obj [("new", .i 2)]) ≠ (.obj [("old", .i 1)]) ∧
    (applyStateUpdate priorStateA
        ⟨[.msg overwriteResp], none, none, none, some (.obj [("new", .i 2)]),
         none, none, none⟩).final_draft_with_suppliers
      = some (.obj [("new", .i 2)]) := by
  refine ⟨rfl, rfl, ?_, rfl⟩
  intro h
  have h2 : pyGet (.obj [("new", .i 2)]) "new" = pyGet (.obj [("old", .i 1)]) "new" := by
    rw [h]
  rw [show pyGet (JVal.obj [("new", .i 2)]) "new" = some (.i 2) from rfl,
      show pyGet (JVal.obj [("old", .i 1)]) "new" = none from rfl] at h2
  simp at h2

/-- C6 (amended): the monotonicity that does hold.  (i) Applying any node
update never deletes a set document field (a returned update can only
overwrite a channel, never remove it).  (ii) Each phase node only ever
writes its own document field: the other three are absent from every update
it can return.  (iii) find_suppliers_node leaves its field untouched when
the response lacks the finalization marker; when the marker is present it
overwrites the field with the freshly extracted payload unconditionally —
there is no StaleTransition error anywhere (the counterexample shows an
actual silent overwrite of a different value). -/
theorem claim_C6_monotonic_fields_amended :
    (∀ (s : SupplierState) (u : StateUpdate),
      (s.requirements.isSome = true →
        ((applyStateUpdate s u).requirements).isSome = true) ∧
      (s.approved_timeline.isSome = true →
        ((applyStateUpdate s u).approved_timeline).isSome = true) ∧
      (s.final_draft.isSome = true →
        ((applyStateUpdate s u).final_draft).isSome = true) ∧
      (s.final_draft_with_suppliers.isSome = true →
        ((applyStateUpdate s u).final_draft_with_suppliers).isSome = true)) ∧
    (∀ (freshId : Nat) (s : SupplierState) (r : Msg),
      (gather_requirements_update freshId s r).approved_timeline = none ∧
      (gather_requirements_update freshId s r).final_draft = none ∧
      (gather_requirements_update freshId s r).final_draft_with_suppliers
        = none) ∧
    (∀ (freshId : Nat) (s : SupplierState) (r : Msg),
      (draft_timeline_update freshId s r).requirements = none ∧
      (draft_timeline_update freshId s r).final_draft = none ∧
      (draft_timeline_update freshId s r).final_draft_with_suppliers
        = none) ∧
    (∀ (freshId : Nat) (s : SupplierState) (r : Msg),
      (final_draft_update freshId s r).requirements = none ∧
      (final_draft_update freshId s r).approved_timeline = none ∧
      (final_draft_update freshId s r).final_draft_with_suppliers = none) ∧
    (∀ (s : SupplierState) (r : Msg) (u : StateUpdate),
      find_suppliers_update s r = .ok u →
      u.requirements = none ∧ u.approved_timeline = none ∧
      u.final_draft = none) ∧
    (∀ (s : SupplierState) (r : Msg),
      substrOccurs "final_draft_with_suppliers" r.content = false →
      find_suppliers_update s r = .ok (messagesOnly [.msg r])) := by
  refine ⟨?_, ?_, ?_, ?_, ?_, ?_⟩
  · intro s u
    refine ⟨?_, ?_, ?_, ?_⟩ <;> intro h <;>
      simp only [applyStateUpdate] <;>
      [cases hx : u.requirements; cases hx : u.approved_timeline;
       cases hx : u.final_draft; cases hx : u.final_draft_with_suppliers] <;>
      simp [hx, h]
  · intro freshId s r
    unfold gather_requirements_update
    refine ⟨?_, ?_, ?_⟩ <;> (repeat' split) <;> rfl
  · intro freshId s r
    unfold draft_timeline_update
    refine ⟨?_, ?_, ?_⟩ <;> (repeat' split) <;> rfl
  · intro freshId s r
    unfold final_draft_update
    refine ⟨?_, ?_, ?_⟩ <;> (repeat' split) <;> rfl
  · intro s r u h
    unfold find_suppliers_update at h
    by_cases hm : substrOccurs "final_draft_with_suppliers" r.content
    · rw [if_pos hm] at h
      cases hex : extract_final_draft_with_suppliers r.content with
      | error e => rw [hex] at h; exact absurd h (by simp)
      | ok fdws =>
        rw [hex] at h
        injection h with h2
        rw [← h2]
        exact ⟨rfl, rfl, rfl⟩
    · rw [if_neg hm] at h
      injection h with h2
      rw [← h2]
      exact ⟨rfl, rfl, rfl⟩
  · intro s r hm
    simp [find_suppliers_update, hm]

/-- Witness for C6 (amended) at concrete inputs: applying an update to a
state with final_draft_with_suppliers set keeps it set, and a response
without the marker leaves the field untouched. -/
theorem claim_C6_monotonic_fields_witness :
    ((applyStateUpdate priorStateA
      (messagesOnly [.msg overwriteResp])).final_draft_with_suppliers).isSome
      = true ∧
    find_suppliers_update priorStateB priorMsgA
      = .ok (messagesOnly [.msg priorMsgA]) ∧
    (gather_requirements_update 9 priorStateB gatherResp).final_draft_with_suppliers = none :=
  ⟨(claim_C6_monotonic_fields_amended.1 priorStateA
      (messagesOnly [.msg overwriteResp])).2.2.2 rfl,
   claim_C6_monotonic_fields_amended.2.2.2.2.2 priorStateB priorMsgA rfl,
   (claim_C6_monotonic_fields_amended.2.1 9 priorStateB gatherResp).2.2⟩

/-- C7 counterexample: the FindSuppliers phase sets
final_draft_with_suppliers WITHOUT compacting the log.  On a finalizing
response the node's update appends the response to the prior log, which
afterwards has two turns — it is not replaced by a single synthetic
summary turn. -/
theorem claim_C7_log_compaction_counterexample :
    find_suppliers_update priorStateA overwriteResp
      = .ok ⟨[.msg overwriteResp], none, none, none,
          some (.obj [("new", .i 2)]), none, none, none⟩ ∧
    add_messages priorStateA.messages [.msg overwriteResp]
      = [priorMsgA, overwriteResp] ∧
    (add_messages priorStateA.messages [.msg overwriteResp]).length = 2 :=
  ⟨rfl, rfl, rfl⟩

/-- C7 (amended): log compaction accompanies every field-setting
finalization of the first three phases — whenever
gather_requirements_node sets requirements, draft_timeline_node sets
approved_timeline, or final_draft_node sets final_draft, the update
consists of removals of every prior message plus one fresh AI summary
turn, and applying it replaces the entire log with that single turn — but
the FindSuppliers phase never compacts: its update always just appends the
oracle response, which extends the log when the response id is fresh. -/
theorem claim_C7_log_compaction_amended :
    (∀ (freshId : Nat) (s : SupplierState) (r : Msg),
      ((gather_requirements_update freshId s r).requirements).isSome = true →
      ∃ m, (gather_requirements_update freshId s r).messages
          = s.messages.map (fun x => MsgUpdate.remove x.id) ++ [.msg m] ∧
        add_messages s.messages
          (gather_requirements_update freshId s r).messages = [m] ∧
        m.kind = .ai) ∧
    (∀ (freshId : Nat) (s : SupplierState) (r : Msg),
      ((draft_timeline_update freshId s r).approved_timeline).isSome = true →
      ∃ m, (draft_timeline_update freshId s r).messages
          = s.messages.map (fun x => MsgUpdate.remove x.id) ++ [.msg m] ∧
        add_messages s.messages
          (draft_timeline_update freshId s r).messages = [m] ∧
        m.kind = .ai) ∧
    (∀ (freshId : Nat) (s : SupplierState) (r : Msg),
      ((final_draft_update freshId s r).final_draft).isSome = true →
      ∃ m, (final_draft_update freshId s r).messages
          = s.messages.map (fun x => MsgUpdate.remove x.id) ++ [.msg m] ∧
        add_messages s.messages
          (final_draft_update freshId s r).messages = [m] ∧
        m.kind = .ai) ∧
    (∀ (s : SupplierState) (r : Msg) (u : StateUpdate),
      find_suppliers_update s r = .ok u → u.messages = [.msg r]) ∧
    (∀ (s : SupplierState) (r : Msg), (∀ x ∈ s.messages, x.id ≠ r.id) →
      add_messages s.messages [.msg r] = s.messages ++ [r]) := by
  refine ⟨?_, ?_, ?_, ?_, ?_⟩
  · intro freshId s r h
    cases htc : r.tool_calls with
    | nil =>
      exact absurd h (by simp [gather_requirements_update, htc, messagesOnly])
    | cons tc rest =>
      cases hreq : pyIndexE tc.args "requirements" with
      | error e =>
        exact absurd h (by simp [gather_requirements_update, htc, hreq,
          errMsgUpdate, messagesOnly])
      | ok reqVal =>
        cases hfmt : format_requirements_table
            (requirements_as_string reqVal) with
        | none =>
          exact absurd h (by simp [gather_requirements_update, htc, hreq,
            hfmt, errMsgUpdate, messagesOnly])
        | some formatted =>
          simp only [gather_requirements_update, htc, hreq, hfmt]
          exact ⟨_, rfl, add_messages_compact _ _, rfl⟩
  · intro freshId s r h
    by_cases hm : substrOccurs "--timeline_finalized--" r.content
    · cases hdo : draft_timeline_pieces r.content with
      | error e =>
        exact absurd h (by simp [draft_timeline_update, hm, hdo,
          errMsgUpdate, messagesOnly])
      | ok triple =>
        obtain ⟨timeline_events, additional_preferences, prefList⟩ := triple
        cases hfmt : format_timeline_table (jsonDump (.arr timeline_events)) with
        | none =>
          exact absurd h (by simp [draft_timeline_update, hm, hdo, hfmt,
            errMsgUpdate, messagesOnly])
        | some formatted =>
          simp only [draft_timeline_update, hm, hdo, hfmt, if_true]
          exact ⟨_, rfl, add_messages_compact _ _, rfl⟩
    · exact absurd h (by simp [draft_timeline_update, hm, messagesOnly])
  · intro freshId s r h
    by_cases hm : substrOccurs "final_draft_approved" r.content
    · cases hfmt : format_final_draft
          (extract_final_draft_from_response r.content) with
      | none =>
        exact absurd h (by simp [final_draft_update, hm, hfmt,
          errMsgUpdate, messagesOnly])
      | some formatted =>
        simp only [final_draft_update, hm, hfmt, if_true]
        exact ⟨_, rfl, add_messages_compact _ _, rfl⟩
    · exact absurd h (by simp [final_draft_update, hm, messagesOnly])
  · intro s r u h
    unfold find_suppliers_update at h
    by_cases hm : substrOccurs "final_draft_with_suppliers" r.content
    · rw [if_pos hm] at h
      cases hex : extract_final_draft_with_suppliers r.content with
      | error e => rw [hex] at h; exact absurd h (by simp)
      | ok fdws =>
        rw [hex] at h
        injection h with h2
        rw [← h2]
    · rw [if_neg hm] at h
      injection h with h2
      rw [← h2]
      rfl
  · intro s r h
    exact add_messages_append_fresh s.messages r h

/-- Witness for C7 (amended): a concrete gather finalization compacts the
log to one AI turn, and a fresh response id appends at FindSuppliers. -/
theorem claim_C7_log_compaction_witness :
    (∃ m, (gather_requirements_update 9 priorStateB gatherResp).messages
        = priorStateB.messages.map (fun x => MsgUpdate.remove x.id)
          ++ [.msg m] ∧
      add_messages priorStateB.messages
        (gather_requirements_update 9 priorStateB gatherResp).messages
        = [m] ∧
      m.kind = .ai) ∧
    add_messages priorStateB.messages [.msg overwriteResp]
      = priorStateB.messages ++ [overwriteResp] :=
  ⟨claim_C7_log_compaction_amended.1 9 priorStateB gatherResp rfl,
   claim_C7_log_compaction_amended.2.2.2.2 priorStateB overwriteResp
     (fun x hx => by cases List.mem_singleton.mp hx; decide)⟩

/-- C8 counterexample: a finalizing utterance whose payload cannot be
parsed does NOT get surfaced to the caller as plain output by
draft_timeline_node: the node finalizes an empty timeline instead — it
sets approved_timeline to a truthy dict with an empty timeline, compacts
the log to a single summary turn, and that turn's content is not the raw
utterance. -/
theorem claim_C8_fail_open_counterexample :
    (draft_timeline_update 9 priorStateB unparseableTimelineResp).approved_timeline
      = some (.obj [("timeline", .arr []),
          ("additional_preferences", .arr [])]) ∧
    fieldTruthy (some (.obj [("timeline", .arr []),
      ("additional_preferences", .arr [])])) = true ∧
    add_messages priorStateB.messages
        (draft_timeline_update 9 priorStateB unparseableTimelineResp).messages
      = [aiMsg 9 emptyTimelineSummary] ∧
    ((add_messages priorStateB.messages
        (draft_timeline_update 9 priorStateB unparseableTimelineResp).messages).all
      (fun m => m.content != unparseableTimelineResp.content)) = true :=
  ⟨rfl, rfl, rfl, rfl⟩

/-- C8 (amended): parse failure never raises, but only find_suppliers_node
surfaces the raw utterance.  (a) In find_suppliers_node an unparseable
located payload is fail-open: the update succeeds, appends the raw
response to the log, and stores an empty dict in the field.  (b) In
draft_timeline_node a finalization marker whose payload extraction yields
[] produces no error either — but the node finalizes: it sets
approved_timeline to the empty-timeline dict and replaces the log with the
synthetic summary (the raw utterance is dropped).  (c) final_draft_node
behaves like (b) with an empty draft. -/
theorem claim_C8_fail_open_amended :
    (∀ (s : SupplierState) (r : Msg),
      substrOccurs "final_draft_with_suppliers" r.content = true →
      jsonParse (locate_payload r.content) = none →
      find_suppliers_update s r
        = .ok ⟨[.msg r], none, none, none, some (.obj []), none, none,
            none⟩) ∧
    (∀ (freshId : Nat) (s : SupplierState) (r : Msg),
      substrOccurs "--timeline_finalized--" r.content = true →
      extract_timeline_from_response r.content = .ok [] →
      (draft_timeline_update freshId s r).approved_timeline
        = some (.obj [("timeline", .arr []),
            ("additional_preferences", .arr [])]) ∧
      (draft_timeline_update freshId s r).messages
        = s.messages.map (fun x => MsgUpdate.remove x.id)
          ++ [.msg (aiMsg freshId emptyTimelineSummary)]) ∧
    (∀ (freshId : Nat) (s : SupplierState) (r : Msg),
      substrOccurs "final_draft_approved" r.content = true →
      extract_final_draft_from_response r.content = .obj [] →
      (final_draft_update freshId s r).final_draft = some (.obj []) ∧
      (final_draft_update freshId s r).messages
        = s.messages.map (fun x => MsgUpdate.remove x.id)
          ++ [.msg (aiMsg freshId emptyDraftSummary)]) := by
  refine ⟨?_, ?_, ?_⟩
  · intro s r hm hp
    unfold find_suppliers_update extract_final_draft_with_suppliers
    rw [if_pos hm, hp]
  · intro freshId s r hm hex
    have hdo : draft_timeline_pieces r.content = .ok ([], .arr [], []) := by
      unfold draft_timeline_pieces
      rw [hex]
      rfl
    unfold draft_timeline_update
    rw [if_pos hm, hdo]
    exact ⟨rfl, rfl⟩
  · intro freshId s r hm hex
    unfold final_draft_update
    rw [if_pos hm]
    simp only [hex]
    exact ⟨rfl, rfl⟩

/-- Witness for C8 (amended) at concrete unparseable finalizations. -/
theorem claim_C8_fail_open_witness :
    find_suppliers_update priorStateB unparseableFdwsResp
      = .ok ⟨[.msg unparseableFdwsResp], none, none, none, some (.obj []),
          none, none, none⟩ ∧
    (draft_timeline_update 9 priorStateB unparseableTimelineResp).approved_timeline
      = some (.obj [("timeline", .arr []),
          ("additional_preferences", .arr [])]) ∧
    (final_draft_update 9 priorStateB unparseableDraftResp).final_draft
      = some (.obj []) :=
  ⟨claim_C8_fail_open_amended.1 priorStateB unparseableFdwsResp rfl rfl,
   (claim_C8_fail_open_amended.2.1 9 priorStateB unparseableTimelineResp
     rfl rfl).1,
   (claim_C8_fail_open_amended.2.2 9 priorStateB unparseableDraftResp
     rfl rfl).1⟩

/-- A validation error dict of fetch_suppliers_tool has no suppliers key. -/
theorem fetchErrorDict_suppliers (m : String) :
    pyGet (fetchErrorDict m) "suppliers" = none := rfl

/-- The suppliers entry of the result dict built by fetchFinishResult. -/
theorem pyGet_total_suppliers (t s : JVal) :
    pyGet (JVal.obj [("total", t), ("suppliers", s)]) "suppliers"
      = some s := rfl

/-- A [:10] slice that is a list has at most 10 elements. -/
theorem pySlice10_arr_len (sup : JVal) (xs : List JVal)
    (h : pySlice10 sup = .ok (.arr xs)) : xs.length ≤ 10 := by
  cases sup with
  | arr ys =>
    simp only [pySlice10] at h
    injection h with h6
    injection h6 with h7
    rw [← h7, List.length_take]
    omega
  | s str =>
    simp only [pySlice10] at h
    injection h with h6
    exact JVal.noConfusion h6
  | null => simp [pySlice10] at h
  | b x => simp [pySlice10] at h
  | i x => simp [pySlice10] at h
  | obj fs => simp [pySlice10] at h

/-- Every successful fetchFinishResult carries at most 10 suppliers: the
suppliers entry of the result dict is the [:10] slice of the backend list. -/
theorem fetchFinishResult_suppliers (env : FetchEnv) (params v : JVal)
    (xs : List JVal) (h : fetchFinishResult env params = .ok v)
    (hs : pyGet v "suppliers" = some (.arr xs)) : xs.length ≤ 10 := by
  unfold fetchFinishResult at h
  split at h
  · exact absurd h (by simp)
  · split at h
    · exact absurd h (by simp)
    · split at h
      · exact absurd h (by simp)
      · split at h
        · exact absurd h (by simp)
        · rename_i hq4
          injection h with h4
          rw [← h4] at hs
          rw [pyGet_total_suppliers] at hs
          injection hs with h5
          rw [h5] at hq4
          exact pySlice10_arr_len _ xs hq4

/-- Every agent_filter request issued by fetch_with_boundaries beyond the
prior trace has exactly the base params plus boundary and category
entries. -/
theorem fwb_filter_mem (env : FetchEnv) (base : List (String × JVal))
    (cids : List Int) (bnd : JVal) (tr : List FetchCall) (p : JVal)
    (h : FetchCall.agent_filter p
      ∈ (fetch_with_boundaries env base cids bnd tr).2) :
    FetchCall.agent_filter p ∈ tr ∨
      ∃ suffix, p = .obj (base ++ suffix) := by
  simp only [fetch_with_boundaries] at h
  by_cases hb : bnd.truthy = true
  · rw [if_pos hb] at h
    cases hbp : boundary_params bnd with
    | error e => rw [hbp] at h; exact .inl h
    | ok bParams =>
      rw [hbp] at h
      simp only [fetchFinish] at h
      rcases List.mem_append.mp h with h1 | h2
      · exact .inl h1
      · right
        have h3 := List.mem_singleton.mp h2
        injection h3 with h4
        exact ⟨bParams ++ (if cids.isEmpty then [] else [("categories",
          .s (String.intercalate "," (cids.map (fun i => toString i))))]),
          by rw [h4, List.append_assoc]⟩
  · rw [if_neg hb] at h
    simp only [fetchFinish] at h
    rcases List.mem_append.mp h with h1 | h2
    · exact .inl h1
    · right
      have h3 := List.mem_singleton.mp h2
      injection h3 with h4
      exact ⟨(if cids.isEmpty then [] else [("categories",
        .s (String.intercalate "," (cids.map (fun i => toString i))))]), h4⟩

/-- Any successful result of fetch_with_boundaries carries at most 10
suppliers. -/
theorem fwb_result_suppliers (env : FetchEnv) (base : List (String × JVal))
    (cids : List Int) (bnd : JVal) (tr : List FetchCall) (v : JVal)
    (xs : List JVal)
    (h : (fetch_with_boundaries env base cids bnd tr).1 = .ok v)
    (hs : pyGet v "suppliers" = some (.arr xs)) : xs.length ≤ 10 := by
  simp only [fetch_with_boundaries] at h
  by_cases hb : bnd.truthy = true
  · rw [if_pos hb] at h
    cases hbp : boundary_params bnd with
    | error e => rw [hbp] at h; exact absurd h (by simp)
    | ok bParams => rw [hbp] at h; exact fetchFinishResult_suppliers env _ v xs h hs
  · rw [if_neg hb] at h
    exact fetchFinishResult_suppliers env _ v xs h hs

/-- C10: fetch_suppliers_tool clamps the requested limit into [1, 10]
(max(1, min(10, limit))), every supplier request it issues carries exactly
that clamped limit in its params, and every successful result that has a
suppliers list holds at most 10 suppliers, whatever the backend answered
and whatever limit was requested. -/
theorem claim_C10_fetch_limit :
    ∀ (env : FetchEnv) (sname location : Option String)
      (minRating maxRating matchStatus : JVal)
      (categories : Option (List String)) (limit0 offset : Int)
      (sort_by sort_order fields : String),
      (1 ≤ max 1 (min 10 limit0) ∧ max 1 (min 10 limit0) ≤ 10) ∧
      (∀ p, FetchCall.agent_filter p ∈
          (fetch_suppliers_tool env sname location minRating maxRating
            matchStatus categories limit0 offset sort_by sort_order
            fields).2 →
        pyGet p "limit" = some (.i (max 1 (min 10 limit0)))) ∧
      (∀ v xs,
        (fetch_suppliers_tool env sname location minRating maxRating
            matchStatus categories limit0 offset sort_by sort_order
            fields).1 = .ok v →
        pyGet v "suppliers" = some (.arr xs) → xs.length ≤ 10) := by
  intro env sname location minRating maxRating matchStatus categories
    limit0 offset sort_by sort_order fields
  refine ⟨⟨le_max_left 1 _,
    max_le (by norm_num) (min_le_left 10 limit0)⟩, ?_, ?_⟩
  · intro p hp
    simp only [fetch_suppliers_tool] at hp
    split at hp
    · simp at hp
    · split at hp
      · simp at hp
      · split at hp
        · rcases fwb_filter_mem _ _ _ _ _ _ hp with h1 | ⟨suffix, hsuf⟩
          · simp at h1
          · rw [hsuf]; rfl
        · split at hp
          · rcases fwb_filter_mem _ _ _ _ _ _ hp with h1 | ⟨suffix, hsuf⟩
            · simp at h1
            · rw [hsuf]; rfl
          · split at hp
            · simp at hp
            · split at hp
              · simp at hp
              · rcases fwb_filter_mem _ _ _ _ _ _ hp
                  with h1 | ⟨suffix, hsuf⟩
                · simp at h1
                · rw [hsuf]; rfl
  · intro v xs hv hs
    simp only [fetch_suppliers_tool] at hv
    split at hv
    · injection hv with h4
      rw [← h4, fetchErrorDict_suppliers] at hs
      exact absurd hs (by simp)
    · split at hv
      · injection hv with h4
        rw [← h4, fetchErrorDict_suppliers] at hs
        exact absurd hs (by simp)
      · split at hv
        · exact fwb_result_suppliers _ _ _ _ _ v xs hv hs
        · split at hv
          · exact fwb_result_suppliers _ _ _ _ _ v xs hv hs
          · split at hv
            · simp at hv
            · split at hv
              · simp at hv
              · exact fwb_result_suppliers _ _ _ _ _ v xs hv hs

/-- Witness for C10: a backend answering 12 suppliers and a requested limit
of 15: the issued params carry limit 10 and the result keeps 10 suppliers. -/
theorem claim_C10_fetch_limit_witness :
    pyGet fetchParams15 "limit" = some (.i (max 1 (min 10 (15 : Int)))) ∧
    (List.replicate 10 JVal.null).length ≤ 10 :=
  ⟨(claim_C10_fetch_limit envFetch12 none none (.i 0) (.i 5) .null none
      15 0 "supplier_name" "asc" "f").2.1 fetchParams15 (List.Mem.head _),
   (claim_C10_fetch_limit envFetch12 none none (.i 0) (.i 5) .null none
      15 0 "supplier_name" "asc" "f").2.2
     (.obj [("total", .i 12),
       ("suppliers", .arr (List.replicate 10 JVal.null))])
     (List.replicate 10 JVal.null) rfl rfl⟩

end EventAgent
